import Mathlib

/-!
Verification of the asset arena / handle system and the scene-to-GPU
synchronization of the `renderer` repository.

The Rust source is shallowly embedded: `Vec<T>` becomes `List T`, `u32`
arithmetic is `Nat` with an explicit `% 2 ^ 32` where the source casts with
`as u32`, `HashMap` becomes an association list, fallible or panicking code
returns `Option` (`none` models a panic such as `expect`/`unwrap`), and GPU
objects (`wgpu::Buffer`, `wgpu::BindGroup`, `wgpu::Texture`) are opaque
numeric identifiers handed out by a backend counter.  Floating point payloads
(vertex coordinates, colors, transforms) are carried as opaque tokens; no
claim inspects them.
-/

set_option autoImplicit false
set_option linter.unusedVariables false

universe u

/-! ## Arena and handles (src/arena.rs) -/

/-- Embeds `Handle<T>` from src/arena.rs: a plain `u32` index with a phantom
type parameter.  The index is a `Nat` kept below `2 ^ 32` by construction. -/
structure Handle (T : Type u) where
  id : Nat

instance {T : Type u} : DecidableEq (Handle T) := fun a b =>
  match a, b with
  | ⟨i⟩, ⟨j⟩ =>
    if h : i = j then .isTrue (by simp [h]) else .isFalse (by simp [h])

/-- Embeds `Arena<T>` from src/arena.rs: an append-only vector of slots. -/
structure Arena (T : Type u) where
  slots : List T
  deriving DecidableEq

/-- Embeds `Arena::new`. -/
def Arena.new {T : Type u} : Arena T := ⟨[]⟩

/-- Embeds `Arena::allocate`: `let id = self.slots.len() as u32; self.slots.push(t)`.
The `as u32` cast truncates, hence the `% 2 ^ 32`. -/
def Arena.allocate {T : Type u} (a : Arena T) (t : T) : Arena T × Handle T :=
  (⟨a.slots ++ [t]⟩, ⟨a.slots.length % 2 ^ 32⟩)

/-- Embeds `Arena::get`: `self.slots.get(handle.id as usize).expect("bad handle")`.
`none` models the "bad handle" panic. -/
def Arena.get? {T : Type u} (a : Arena T) (h : Handle T) : Option T :=
  a.slots[h.id]?

/-- Embeds `Arena::get_mut` (same bounds behavior as `get`); `none` models the
"bad handle" panic. -/
def Arena.get_mut? {T : Type u} (a : Arena T) (h : Handle T) : Option T :=
  a.slots[h.id]?

/-- Embeds `Arena::replace`: swap the slot's value through `get_mut`, returning
the old value; `none` models the "bad handle" panic inside `get_mut`. -/
def Arena.replace? {T : Type u} (a : Arena T) (h : Handle T) (t : T) :
    Option (Arena T × T) :=
  match a.get_mut? h with
  | some old => some (⟨a.slots.set h.id t⟩, old)
  | none => none

/-- Embeds `Arena::elements`: enumerate the slots, rebuilding a handle from
each index (`Handle::new(i as u32)`). -/
def Arena.elements {T : Type u} (a : Arena T) : List (Handle T × T) :=
  a.slots.enum.map (fun p => (⟨p.1 % 2 ^ 32⟩, p.2))

/-! ## Type erasure (src/arena.rs) -/

/-- Models Rust's `TypeId::of::<T>()`: every type that can parameterize a
handle carries a runtime type identifier.  Rust guarantees distinct types have
distinct `TypeId`s; theorems about two distinct types take the corresponding
inequality as a hypothesis. -/
class RustTypeId (T : Type u) where
  typeId : Nat

/-- Embeds `TypeErasedHandle`: the index plus the erased runtime type id. -/
structure TypeErasedHandle where
  id : Nat
  erased_type_id : Nat
  deriving DecidableEq

/-- Embeds `Handle::to_type_erased`. -/
def Handle.to_type_erased {T : Type u} [RustTypeId T] (h : Handle T) :
    TypeErasedHandle :=
  ⟨h.id, RustTypeId.typeId T⟩

/-- Embeds `TypeErasedHandle::downcast::<T>`: compare the stored type id with
`TypeId::of::<T>()`; on success re-tag the index, on failure hand back the
original erased handle. -/
def TypeErasedHandle.downcast (T : Type u) [RustTypeId T]
    (e : TypeErasedHandle) : Except TypeErasedHandle (Handle T) :=
  if e.erased_type_id = RustTypeId.typeId T then .ok ⟨e.id⟩ else .error e

/-- Embeds `TypeErasedHandle::erased_type_id`. -/
def TypeErasedHandle.erasedTypeId (e : TypeErasedHandle) : Nat :=
  e.erased_type_id

/-! ## Timestamp (src/timestamp.rs) -/

/-- Embeds `Timestamp`: seconds and sub-second milliseconds since the epoch
(both `u32` in the source; overflow of the seconds field is irrelevant to the
claims, so plain `Nat` is used). -/
structure Timestamp where
  seconds : Nat
  millis : Nat
  deriving DecidableEq

/-- Embeds the derived lexicographic `Ord` on `Timestamp` (field order:
`seconds`, then `millis`). -/
def Timestamp.ltb (a b : Timestamp) : Bool :=
  a.seconds < b.seconds ∨ (a.seconds = b.seconds ∧ a.millis < b.millis)

/-- Embeds `Timestamp::as_seconds`: `seconds as f64 + millis as f64 / 1000.0`,
modelled exactly in `ℚ`. -/
def Timestamp.as_seconds (t : Timestamp) : ℚ :=
  (t.seconds : ℚ) + (t.millis : ℚ) / 1000

/-- Embeds `Timestamp::seconds_since`, with `now` passed explicitly:
`Self::now().as_seconds() - self.as_seconds()`. -/
def Timestamp.seconds_since (t : Timestamp) (now : Timestamp) : ℚ :=
  now.as_seconds - t.as_seconds

/-! ## Association-list helpers (model of `HashMap`) -/

/-- Lookup in an association list (models `HashMap::get`). -/
def mapLookup {K : Type} {V : Type u} [DecidableEq K] (k : K) :
    List (K × V) → Option V
  | [] => none
  | (k', v) :: rest => if k' = k then some v else mapLookup k rest

/-- Insert-or-replace in an association list (models `HashMap::insert`). -/
def mapInsert {K : Type} {V : Type u} [DecidableEq K] (k : K) (v : V) :
    List (K × V) → List (K × V)
  | [] => [(k, v)]
  | (k', v') :: rest =>
    if k' = k then (k, v) :: rest else (k', v') :: mapInsert k v rest

/-! ## Concrete asset types (src/image.rs, src/shader_source.rs, src/mesh.rs,
src/material.rs).  Pixel bytes, vertex coordinates and colors are opaque
tokens: no claim inspects them. -/

/-- Embeds `Image` (crates/asset_image): raw size, pixel payload (opaque
tokens) and the mip chain level count (`None` when no mips were built). -/
structure ImageAsset where
  width : Nat
  height : Nat
  data : List Nat
  mips_level_count : Option Nat
  deriving DecidableEq

/-- Embeds `ShaderSource` (crates/asset_shader_source): the source text. -/
structure ShaderSourceAsset where
  src : String
  deriving DecidableEq

/-- Embeds `Material` from src/material.rs.  `billboard_mode`:
Off = 0, On = 1, FixedSize = 2; `base_color` is an opaque color token. -/
structure MaterialAsset where
  base_color : Nat
  base_color_image : Option (Handle ImageAsset)
  billboard_mode : Nat
  unlit : Bool
  deriving DecidableEq

/-- Embeds `Submesh` from src/mesh.rs; vertices are opaque tokens. -/
structure SubmeshAsset where
  vertices : List Nat
  indices : List Nat
  material : Option (Handle MaterialAsset)
  deriving DecidableEq

/-- Embeds `Mesh` from src/mesh.rs. -/
structure MeshAsset where
  submeshes : List SubmeshAsset
  deriving DecidableEq

/-! ## Scene graph (src/scene.rs) -/

mutual

/-- Embeds `Node` from src/scene.rs: an opaque transform token, the payload,
and an opaque token standing for the optional `update_fn` pointer. -/
inductive Node : Type where
  | mk (transform : Nat) (data : NodeData) (update_fn : Option Nat)

/-- Embeds `NodeData` from src/scene.rs.  Camera/Light payloads and the text
size are opaque tokens. -/
inductive NodeData : Type where
  | empty
  | camera (c : Nat)
  | light (l : Nat)
  | mesh (m : Handle MeshAsset)
  | scene (s : Scene)
  | text (bytes : List Nat) (size : Nat)

/-- Embeds `Scene` from src/scene.rs: the optional self handle, the node
arena, the root id and the parent-to-children adjacency map. -/
inductive Scene : Type where
  | mk (handle : Option (Handle Scene)) (nodes : Arena Node) (root : Handle Node)
       (children : List (Handle Node × List (Handle Node)))

end

/-- Projection: the `handle` field of `Scene`. -/
def Scene.handle : Scene → Option (Handle Scene)
  | .mk h _ _ _ => h

/-- Projection: the `nodes` field of `Scene`. -/
def Scene.nodes : Scene → Arena Node
  | .mk _ n _ _ => n

/-- Projection: the `root` field of `Scene`. -/
def Scene.root : Scene → Handle Node
  | .mk _ _ r _ => r

/-- Projection: the `children` field of `Scene`. -/
def Scene.children : Scene → List (Handle Node × List (Handle Node))
  | .mk _ _ _ c => c

/-- Embeds `Node::with_data`: default transform, no update callback. -/
def Node.with_data (data : NodeData) : Node := .mk 0 data none

/-- Embeds `UniqueNodeId` from src/scene.rs. -/
structure UniqueNodeId where
  scene : Handle Scene
  node : Handle Node
  deriving DecidableEq

/-- Embeds `Scene::new_empty`: allocate a root node with an `Empty` payload
into a fresh arena; the `handle` field starts out `None`. -/
def Scene.new_empty : Scene :=
  let p := Arena.new.allocate (Node.with_data .empty)
  .mk none p.1 p.2 []

/-- Embeds `Scene::add_allocate_child`: allocate the child node and append its
id to `children[parent]`, creating the entry if absent. -/
def Scene.add_allocate_child (s : Scene) (parent : Handle Node) (child : Node) :
    Scene × Handle Node :=
  match s with
  | .mk h nodes root children =>
    let p := nodes.allocate child
    let cur := (mapLookup parent children).getD []
    (.mk h p.1 root (mapInsert parent (cur ++ [p.2]) children), p.2)

/-- Embeds `Scene::children_of`: empty slice when no entry is recorded. -/
def Scene.children_of (s : Scene) (node_id : Handle Node) : List (Handle Node) :=
  (mapLookup node_id s.children).getD []

/-- Embeds `Scene::make_unique_node_id`:
`UniqueNodeId(self.handle.expect("dont call this if it crashes"), node_id)`.
`none` models the `expect` panic on a scene whose `handle` field is `None`. -/
def Scene.make_unique_node_id (s : Scene) (node_id : Handle Node) :
    Option UniqueNodeId :=
  match s.handle with
  | some h => some ⟨h, node_id⟩
  | none => none

/-! ## Runtime type ids of the concrete asset types.  The codes are arbitrary
but pairwise distinct, as Rust's `TypeId` guarantees. -/

instance : RustTypeId ImageAsset := ⟨0⟩

instance : RustTypeId ShaderSourceAsset := ⟨1⟩

instance : RustTypeId MeshAsset := ⟨2⟩

instance : RustTypeId MaterialAsset := ⟨3⟩

instance : RustTypeId Scene := ⟨4⟩

/-! ## AssetServer (src/asset_server.rs) -/

/-- Embeds the `Box<dyn Asset>` payload stored in the per-type arenas: one
variant per concrete asset type registered through `IsAsset`. -/
inductive AssetVal : Type where
  | image (v : ImageAsset)
  | shaderSource (v : ShaderSourceAsset)
  | mesh (v : MeshAsset)
  | material (v : MaterialAsset)
  | scene (v : Scene)

/-- Models `as_any().downcast_ref::<Image>()`. -/
def AssetVal.asImage? : AssetVal → Option ImageAsset
  | .image v => some v
  | _ => none

/-- Models `as_any().downcast_ref::<ShaderSource>()`. -/
def AssetVal.asShaderSource? : AssetVal → Option ShaderSourceAsset
  | .shaderSource v => some v
  | _ => none

/-- Models `as_any().downcast_ref::<Mesh>()`. -/
def AssetVal.asMesh? : AssetVal → Option MeshAsset
  | .mesh v => some v
  | _ => none

/-- Models `as_any().downcast_ref::<Material>()`. -/
def AssetVal.asMaterial? : AssetVal → Option MaterialAsset
  | .material v => some v
  | _ => none

/-- Models `as_any().downcast_ref::<Scene>()`. -/
def AssetVal.asScene? : AssetVal → Option Scene
  | .scene v => some v
  | _ => none

/-- Embeds `Metadata` from src/asset_server.rs. -/
structure Metadata where
  path : Option String
  timestamp : Timestamp
  load_options : String
  deriving DecidableEq

/-- Embeds `Metadata::new` (`Timestamp::now()` passed explicitly). -/
def Metadata.new (now : Timestamp) : Metadata := ⟨none, now, ""⟩

/-- Embeds the `Work::LoadFromPath` message sent over the work channel: the
erased handle, the loader (identified by its options string; the loader itself
is a `Box<dyn Loader>` built from them) and the path. -/
structure WorkItem where
  handle : TypeErasedHandle
  load_options : String
  path : String
  deriving DecidableEq

/-- Embeds `AssetServer`.  The two mpsc channels are modelled by their queued
contents: `work_queue` holds the `Work` messages sent to the background
workers and not yet picked up; `work_results` holds the `WorkResult` values
waiting in the result channel that `update` drains. -/
structure AssetServer where
  arenas : List (Nat × Arena AssetVal)
  metadata : List (TypeErasedHandle × Metadata)
  changes : List TypeErasedHandle
  last_changes_check : Timestamp
  work_queue : List WorkItem
  work_results : List (TypeErasedHandle × Except String AssetVal)

/-- Environment supplied by the outside world to the model: the filesystem
modified-time of a path (`std::fs::metadata(path).modified()`; `none` when
either call fails) and the result a freshly built `Loader` for the given type
id and options produces from `load_from_path`. -/
structure LoadEnv where
  fs_modified : String → Option Timestamp
  load : Nat → String → String → Except String AssetVal

/-- Embeds the per-type `Loader::only_sync` answers of this repository:
`ShaderSourceLoader` returns `true`, `ImageLoader` keeps the default
`false` (and only these two types implement `Loadable`). -/
def loaderOnlySync (tid : Nat) : Bool :=
  tid == RustTypeId.typeId ShaderSourceAsset

/-- Embeds `AssetServer::new` (the channels start empty;
`last_changes_check: Default::default()` is `Timestamp::now()`). -/
def AssetServer.new (now : Timestamp) : AssetServer :=
  ⟨[], [], [], now, [], []⟩

/-- Embeds `AssetServer::get_arena::<A>` keyed by the erased type id; `none`
models the "no asset of type added yet" panic. -/
def AssetServer.get_arena? (s : AssetServer) (tid : Nat) :
    Option (Arena AssetVal) :=
  mapLookup tid s.arenas

/-- Embeds `AssetServer::add::<A>` generically over the erased type id:
allocate into the (possibly fresh) arena for the type and insert fresh
metadata; returns the erased form of the typed handle. -/
def AssetServer.addVal (s : AssetServer) (tid : Nat) (v : AssetVal)
    (now : Timestamp) : AssetServer × TypeErasedHandle :=
  let arena := (mapLookup tid s.arenas).getD Arena.new
  let p := arena.allocate v
  let h : TypeErasedHandle := ⟨p.2.id, tid⟩
  ({ s with arenas := mapInsert tid p.1 s.arenas,
            metadata := mapInsert h (Metadata.new now) s.metadata }, h)

/-- Embeds `AssetServer::add::<Scene>` (used by the glTF loader to register a
loaded scene). -/
def AssetServer.addScene (s : AssetServer) (sc : Scene) (now : Timestamp) :
    AssetServer × Handle Scene :=
  let p := s.addVal (RustTypeId.typeId Scene) (.scene sc) now
  (p.1, ⟨p.2.id⟩)

/-- Embeds the typed `AssetServer::get::<Mesh>`: arena lookup, slot lookup,
then downcast; `none` models any of the three panics. -/
def AssetServer.get_mesh? (s : AssetServer) (h : Handle MeshAsset) :
    Option MeshAsset := do
  let arena ← s.get_arena? (RustTypeId.typeId MeshAsset)
  let v ← arena.get? ⟨h.id⟩
  v.asMesh?

/-- Embeds the typed `AssetServer::get::<Material>`. -/
def AssetServer.get_material? (s : AssetServer) (h : Handle MaterialAsset) :
    Option MaterialAsset := do
  let arena ← s.get_arena? (RustTypeId.typeId MaterialAsset)
  let v ← arena.get? ⟨h.id⟩
  v.asMaterial?

/-- Embeds the typed `AssetServer::get::<Image>`. -/
def AssetServer.get_image? (s : AssetServer) (h : Handle ImageAsset) :
    Option ImageAsset := do
  let arena ← s.get_arena? (RustTypeId.typeId ImageAsset)
  let v ← arena.get? ⟨h.id⟩
  v.asImage?

/-- Embeds the typed `AssetServer::get::<Scene>`. -/
def AssetServer.get_scene? (s : AssetServer) (h : Handle Scene) :
    Option Scene := do
  let arena ← s.get_arena? (RustTypeId.typeId Scene)
  let v ← arena.get? ⟨h.id⟩
  v.asScene?

/-- Embeds `AssetServer::set_asset`: overwrite the arena slot through
`get_mut`; `none` models the "no arena registered" / "bad handle" panics. -/
def AssetServer.set_asset? (s : AssetServer) (h : TypeErasedHandle)
    (v : AssetVal) : Option AssetServer := do
  let arena ← mapLookup h.erased_type_id s.arenas
  let _ ← arena.get_mut? ⟨h.id⟩
  some { s with
    arenas := mapInsert h.erased_type_id ⟨arena.slots.set h.id v⟩ s.arenas }

/-- Embeds `AssetServer::get_metadata`; `none` models the "asset metadata
should exist" panic. -/
def AssetServer.get_metadata? (s : AssetServer) (h : TypeErasedHandle) :
    Option Metadata :=
  mapLookup h s.metadata

/-- Embeds `AssetServer::set_asset_timestamp` (through `get_metadata_mut`;
`none` models its panic). -/
def AssetServer.set_asset_timestamp? (s : AssetServer) (h : TypeErasedHandle)
    (ts : Timestamp) : Option AssetServer := do
  let md ← s.get_metadata? h
  some { s with metadata := mapInsert h { md with timestamp := ts } s.metadata }

/-- Embeds `AssetServer::finish_asset_reload`: record the erased handle in the
pending change set (`HashSet::insert`: no duplicates). -/
def AssetServer.finish_asset_reload (s : AssetServer) (h : TypeErasedHandle) :
    AssetServer :=
  if h ∈ s.changes then s else { s with changes := s.changes ++ [h] }

/-- Embeds `AssetServer::take_asset_changes`: `std::mem::take`. -/
def AssetServer.take_asset_changes (s : AssetServer) :
    AssetServer × List TypeErasedHandle :=
  ({ s with changes := [] }, s.changes)

/-- Observable ordering of the two externally visible steps of `reload` on the
asynchronous path: sending the `Work::LoadFromPath` message, and stamping the
metadata timestamp. -/
inductive ReloadEv : Type where
  | enqueued_work
  | stamped_timestamp
  deriving DecidableEq

/-- Embeds `AssetServer::reload` for the handle's asset type, parameterized by
the loader environment and the current time.  Returns the new state, the
`eprintln` lines emitted, and the ordered `ReloadEv` trace.  Mirrors the
source order: the sync path loads (installing on success, logging on error),
the async path sends the work message; in both paths
`set_asset_timestamp(handle, Timestamp::now())` runs last.  `none` models the
"assets without path cannot be reloaded" panic and the metadata/arena
panics. -/
def AssetServer.reload (env : LoadEnv) (now : Timestamp) (s : AssetServer)
    (h : TypeErasedHandle) :
    Option (AssetServer × List String × List ReloadEv) := do
  let md ← s.get_metadata? h
  let path ← md.path
  let load_options := md.load_options
  if loaderOnlySync h.erased_type_id then
    match env.load h.erased_type_id load_options path with
    | .ok v => do
        let s1 ← s.set_asset? h v
        let s2 := s1.finish_asset_reload h
        let s3 ← s2.set_asset_timestamp? h now
        some (s3, [], [.stamped_timestamp])
    | .error _ => do
        let s1 ← s.set_asset_timestamp? h now
        some (s1, ["AssetServer::reload(): asset failed to load: " ++ path],
              [.stamped_timestamp])
  else do
    let s1 : AssetServer :=
      { s with work_queue := s.work_queue ++ [⟨h, load_options, path⟩] }
    let s2 ← s1.set_asset_timestamp? h now
    some (s2, [], [.enqueued_work, .stamped_timestamp])

/-- Embeds the result-draining loop at the top of `AssetServer::update`:
`let asset = result.unwrap();` — a `none` on an `Err` result models that
`unwrap` panic — then `set_asset`, then `finish_asset_reload` when the handle
downcasts to an `Image` handle. -/
def drainResultsGo (s : AssetServer) :
    List (TypeErasedHandle × Except String AssetVal) → Option AssetServer
  | [] => some s
  | (h, result) :: rest =>
    match result with
    | .error _ => none
    | .ok v => do
        let s1 ← s.set_asset? h v
        let s2 := if (h.downcast ImageAsset).isOk
          then s1.finish_asset_reload h else s1
        drainResultsGo s2 rest

/-- Drains every queued `WorkResult`, in channel order. -/
def AssetServer.drain_results? (s : AssetServer) : Option AssetServer :=
  drainResultsGo { s with work_results := [] } s.work_results

/-- Embeds the collection half of one `iter_assets::<A>` loop of
`check_for_file_changes`: walk the arena of the given type id and keep the
handles whose file's modified time is strictly newer than the stored
timestamp (`self.asset_timestamp(handle) < modified_timestamp`); a missing
path or a failed stat skips the entry.  `none` models the `get_metadata`
panic inside `asset_path`. -/
def collectGo (s : AssetServer) (env : LoadEnv) (tid : Nat) :
    List (Handle AssetVal × AssetVal) → Option (List TypeErasedHandle)
  | [] => some []
  | (gh, _) :: rest => do
    let tail ← collectGo s env tid rest
    let h : TypeErasedHandle := ⟨gh.id, tid⟩
    let md ← s.get_metadata? h
    match md.path with
    | none => some tail
    | some path =>
      match env.fs_modified path with
      | none => some tail
      | some modified_timestamp =>
        if Timestamp.ltb md.timestamp modified_timestamp
          then some (h :: tail) else some tail

/-- The handles of type `tid` scheduled for reload by
`check_for_file_changes`; `none` also models the `get_arena` panic of
`iter_assets` when no arena of the type exists. -/
def AssetServer.collect_to_reload? (s : AssetServer) (env : LoadEnv)
    (tid : Nat) : Option (List TypeErasedHandle) := do
  let arena ← s.get_arena? tid
  collectGo s env tid arena.elements

/-- Reloads every collected handle in order, accumulating the log lines. -/
def reloadAll (env : LoadEnv) (now : Timestamp) (s : AssetServer) :
    List TypeErasedHandle → Option (AssetServer × List String)
  | [] => some (s, [])
  | h :: rest => do
    let r ← s.reload env now h
    let p ← reloadAll env now r.1 rest
    some (p.1, r.2.1 ++ p.2)

/-- Embeds `AssetServer::check_for_file_changes`: collect then reload the
stale images, then collect then reload the stale shader sources.  Returns the
new state, the list of handles `reload` was invoked on, and the logs. -/
def AssetServer.check_for_file_changes (env : LoadEnv) (now : Timestamp)
    (s : AssetServer) :
    Option (AssetServer × List TypeErasedHandle × List String) := do
  let images_to_reload ← s.collect_to_reload? env (RustTypeId.typeId ImageAsset)
  let p1 ← reloadAll env now s images_to_reload
  let shader_sources_to_reload ←
    p1.1.collect_to_reload? env (RustTypeId.typeId ShaderSourceAsset)
  let p2 ← reloadAll env now p1.1 shader_sources_to_reload
  some (p2.1, images_to_reload ++ shader_sources_to_reload, p1.2 ++ p2.2)

/-- Embeds `AssetServer::update`: drain the completed background results, then
— when more than `FILES_CHECK_POLL_INTERVAL = 0.25` seconds have passed since
the last check — run `check_for_file_changes` and reset the poll clock.
Returns the new state, the handles reload was triggered on, and the logs.
`none` models any panic, in particular the `result.unwrap()` on a failed
background load. -/
def AssetServer.update (env : LoadEnv) (now : Timestamp) (s : AssetServer) :
    Option (AssetServer × List TypeErasedHandle × List String) := do
  let s1 ← s.drain_results?
  if (0.25 : ℚ) < s1.last_changes_check.seconds_since now then do
    let r ← s1.check_for_file_changes env now
    some ({ r.1 with last_changes_check := now }, r.2.1, r.2.2)
  else
    some (s1, [], [])

/-! ## GPU backend surface (src/renderer/backend.rs, modelled as an opaque
resource allocator).  Every `create_*` call hands out a fresh numeric id and
bumps a per-kind creation counter; `update_uniform_buffer` writes into an
existing buffer and creates nothing. -/

/-- Counter state standing in for `Backend`: GPU objects are identified by the
`next_id` value at their creation. -/
structure Backend where
  next_id : Nat
  vertex_buffers_created : Nat
  index_buffers_created : Nat
  uniform_buffers_created : Nat
  bind_groups_created : Nat
  textures_created : Nat
  uniform_buffer_updates : Nat
  deriving DecidableEq

/-- Models `Backend::create_vertex_buffer` (the vertex payload is opaque). -/
def Backend.create_vertex_buffer (b : Backend) (data : List Nat) :
    Backend × Nat :=
  ({ b with next_id := b.next_id + 1,
            vertex_buffers_created := b.vertex_buffers_created + 1 }, b.next_id)

/-- Models `Backend::create_index_buffer`. -/
def Backend.create_index_buffer (b : Backend) (data : List Nat) :
    Backend × Nat :=
  ({ b with next_id := b.next_id + 1,
            index_buffers_created := b.index_buffers_created + 1 }, b.next_id)

/-- Models `Backend::create_uniform_buffer` (the uniform payload is opaque). -/
def Backend.create_uniform_buffer (b : Backend) (data : Nat) : Backend × Nat :=
  ({ b with next_id := b.next_id + 1,
            uniform_buffers_created := b.uniform_buffers_created + 1 },
   b.next_id)

/-- Models `Backend::update_uniform_buffer`: writes into an existing buffer,
creating no GPU object. -/
def Backend.update_uniform_buffer (b : Backend) (buffer : Nat) (data : Nat) :
    Backend :=
  { b with uniform_buffer_updates := b.uniform_buffer_updates + 1 }

/-- Models `Backend::create_model_bind_group`. -/
def Backend.create_model_bind_group (b : Backend) (uniform_buffer : Nat) :
    Backend × Nat :=
  ({ b with next_id := b.next_id + 1,
            bind_groups_created := b.bind_groups_created + 1 }, b.next_id)

/-- Models `Backend::create_material_bind_group`. -/
def Backend.create_material_bind_group (b : Backend) (uniform_buffer : Nat)
    (texture : Nat) (sampler : Nat) : Backend × Nat :=
  ({ b with next_id := b.next_id + 1,
            bind_groups_created := b.bind_groups_created + 1 }, b.next_id)

/-- Models `Backend::create_color_texture`. -/
def Backend.create_color_texture (b : Backend) (width height : Nat)
    (data : List Nat) (mip_level_count : Nat) : Backend × Nat :=
  ({ b with next_id := b.next_id + 1,
            textures_created := b.textures_created + 1 }, b.next_id)

/-! ## VisualServer registration (src/renderer/visual_server.rs) -/

/-- Embeds `RenderSubmesh`. -/
structure RenderSubmesh where
  vertex_buffer : Nat
  index_buffer : Nat
  index_count : Nat
  material : Handle MaterialAsset
  deriving DecidableEq

/-- Embeds `RenderMesh`. -/
structure RenderMesh where
  submeshes : List RenderSubmesh
  deriving DecidableEq

/-- Embeds `RenderMaterial`. -/
structure RenderMaterial where
  bind_group : Nat
  uniform_buffer : Nat
  used_textures : List (Handle ImageAsset)
  deriving DecidableEq

/-- Embeds `RenderMeshInstance`. -/
structure RenderMeshInstance where
  model_bind_group : Nat
  model_uniform_buffer : Nat
  mesh : Handle MeshAsset
  material_override : Option (Handle MaterialAsset)
  deriving DecidableEq

/-- Embeds `RenderLight` (the shadow-cascade payloads are opaque ids). -/
structure RenderLight where
  bind_group : Nat
  uniform_buffer : Nat
  shadow_map : Nat
  deriving DecidableEq

/-- Embeds `RenderText`. -/
structure RenderText where
  instance_buffer : Nat
  instance_count : Nat
  deriving DecidableEq

/-- Embeds `RenderScene` (the `inv_projection_view` matrix, a float payload,
is omitted; no claim touches it). -/
structure RenderScene where
  meshes : List (Handle MeshAsset × RenderMesh)
  materials : List (Handle MaterialAsset × RenderMaterial)
  textures : List (Handle ImageAsset × Nat)
  lights : List (UniqueNodeId × RenderLight)
  mesh_instances : List (UniqueNodeId × RenderMeshInstance)
  texts : List (UniqueNodeId × RenderText)
  fullscreen_texture : Option Nat
  deriving DecidableEq

/-- Embeds `RenderScene`'s `#[derive(Default)]`: every map empty. -/
def RenderScene.defaultVal : RenderScene :=
  ⟨[], [], [], [], [], [], none⟩

/-- Embeds the registration half of `VisualServer` (render targets, pipelines
and the font texture are out-of-scope GPU objects). -/
structure VisualServer where
  backend : Backend
  render_scene : RenderScene
  white_texture : Nat
  samplers_filtered : Nat
  font_handle : Option (Handle ImageAsset)
  default_material : Option (Handle MaterialAsset)
  quad_mesh : Option (Handle MeshAsset)
  deriving DecidableEq

/-- Embeds `VisualServer::reset_scene`:
`self.render_scene = Default::default();`. -/
def VisualServer.reset_scene (vs : VisualServer) : VisualServer :=
  { vs with render_scene := RenderScene.defaultVal }

/-- Embeds `ImageAsset`'s `mip_level_count()`. -/
def ImageAsset.mip_level_count (i : ImageAsset) : Nat :=
  (i.mips_level_count).getD 1

/-- Embeds `VisualServer::update_texture`: create a texture from the current
image content and insert (or overwrite) the cache entry. -/
def VisualServer.update_texture? (vs : VisualServer) (h : Handle ImageAsset)
    (assets : AssetServer) : Option VisualServer := do
  let image ← assets.get_image? h
  let p := vs.backend.create_color_texture image.width image.height image.data
    image.mip_level_count
  some { vs with
         backend := p.1,
         render_scene := { vs.render_scene with
           textures := mapInsert h p.2 vs.render_scene.textures } }

/-- Embeds `VisualServer::register_texture`: no-op when cached. -/
def VisualServer.register_texture? (vs : VisualServer) (h : Handle ImageAsset)
    (assets : AssetServer) : Option VisualServer :=
  if (mapLookup h vs.render_scene.textures).isSome then some vs
  else vs.update_texture? h assets

/-- Embeds `VisualServer::update_render_material_data`: build the material
uniform buffer, resolve the base color texture (the cached texture — `none`
models the `.unwrap()` panic when it is missing — or the white texture), build
the bind group and insert the cache entry. -/
def VisualServer.update_render_material_data? (vs : VisualServer)
    (h : Handle MaterialAsset) (assets : AssetServer) : Option VisualServer := do
  let material ← assets.get_material? h
  let p1 := vs.backend.create_uniform_buffer material.base_color
  let base_color_texture ← match material.base_color_image with
    | some image => do
        let t ← mapLookup image vs.render_scene.textures
        some (some t)
    | none => some none
  let texture_ref := base_color_texture.getD vs.white_texture
  let p2 := p1.1.create_material_bind_group p1.2 texture_ref
    vs.samplers_filtered
  let rm : RenderMaterial := ⟨p2.2, p1.2, material.base_color_image.toList⟩
  some { vs with
         backend := p2.1,
         render_scene := { vs.render_scene with
           materials := mapInsert h rm vs.render_scene.materials } }

/-- Embeds `VisualServer::register_material`: return early when cached, else
register the base color texture (if any) and build the material data. -/
def VisualServer.register_material? (vs : VisualServer)
    (h : Handle MaterialAsset) (assets : AssetServer) : Option VisualServer := do
  if (mapLookup h vs.render_scene.materials).isSome then some vs
  else do
    let material ← assets.get_material? h
    let vs1 ← match material.base_color_image with
      | some image => vs.register_texture? image assets
      | none => some vs
    vs1.update_render_material_data? h assets

/-- Embeds the submesh loop inside `VisualServer::register_mesh`'s vacant
branch: per submesh, resolve the material (pushing referenced materials onto
`materials_to_register`; a submesh without one falls back to
`default_material.unwrap()`, whose panic is modelled by `none`), then create
the vertex and index buffers.  Returns the threaded backend, the built
`RenderSubmesh` list and the materials to register, in source order. -/
def buildSubmeshesGo (backend : Backend)
    (default_material : Option (Handle MaterialAsset)) :
    List SubmeshAsset →
    Option (Backend × List RenderSubmesh × List (Handle MaterialAsset))
  | [] => some (backend, [], [])
  | sm :: rest => do
    let material ← match sm.material with
      | some m => some m
      | none => default_material
    let p1 := backend.create_vertex_buffer sm.vertices
    let p2 := p1.1.create_index_buffer sm.indices
    let r ← buildSubmeshesGo p2.1 default_material rest
    some (r.1,
          (⟨p1.2, p2.2, sm.indices.length, material⟩ : RenderSubmesh) :: r.2.1,
          (match sm.material with | some m => [m] | none => []) ++ r.2.2)

/-- Registers each collected material in order
(the trailing loop of `register_mesh`). -/
def registerMaterialsAll (vs : VisualServer) (assets : AssetServer) :
    List (Handle MaterialAsset) → Option VisualServer
  | [] => some vs
  | m :: rest => do
    let vs1 ← vs.register_material? m assets
    registerMaterialsAll vs1 assets rest

/-- Embeds `VisualServer::register_mesh`: when the cache entry is vacant,
fetch the mesh (`none` models the `asset_server.get` panic), build one
vertex/index buffer pair per submesh, insert the `RenderMesh`, then register
the collected materials; when the entry is occupied nothing happens
(`materials_to_register` stays empty). -/
def VisualServer.register_mesh? (vs : VisualServer) (h : Handle MeshAsset)
    (assets : AssetServer) : Option VisualServer := do
  if (mapLookup h vs.render_scene.meshes).isSome then some vs
  else do
    let mesh ← assets.get_mesh? h
    let r ← buildSubmeshesGo vs.backend vs.default_material mesh.submeshes
    let vs1 : VisualServer :=
      { vs with
        backend := r.1,
        render_scene := { vs.render_scene with
          meshes := mapInsert h ⟨r.2.1⟩ vs.render_scene.meshes } }
    registerMaterialsAll vs1 assets r.2.2

/-- Embeds `VisualServer::set_mesh_instance`: register the mesh, then create a
model uniform buffer and bind group and insert the instance record —
unconditionally, also when an instance for `id` already exists.  The
`transform` is the opaque uniform payload. -/
def VisualServer.set_mesh_instance? (vs : VisualServer) (id : UniqueNodeId)
    (transform : Nat) (mesh_handle : Handle MeshAsset) (assets : AssetServer) :
    Option VisualServer := do
  let vs1 ← vs.register_mesh? mesh_handle assets
  let p1 := vs1.backend.create_uniform_buffer transform
  let p2 := p1.1.create_model_bind_group p1.2
  some { vs1 with
         backend := p2.1,
         render_scene := { vs1.render_scene with
           mesh_instances := mapInsert id
             (⟨p2.2, p1.2, mesh_handle, none⟩ : RenderMeshInstance)
             vs1.render_scene.mesh_instances } }

/-- Embeds `AssetServer::get_mut::<Material>` followed by the field writes of
`set_sprite`'s steady-state branch. -/
def AssetServer.set_material? (s : AssetServer) (h : Handle MaterialAsset)
    (m : MaterialAsset) : Option AssetServer := do
  let _ ← s.get_material? h
  s.set_asset? ⟨h.id, RustTypeId.typeId MaterialAsset⟩ (.material m)

/-- Embeds `VisualServer::set_sprite`: when an instance for `id` exists,
update its model uniform buffer in place and mutate its override material;
otherwise create the per-instance GPU objects, add a fresh billboard material
to the asset server and insert the instance over the quad mesh
(`quad_mesh.unwrap()` and `material_override.unwrap()` panics are `none`). -/
def VisualServer.set_sprite? (vs : VisualServer) (id : UniqueNodeId)
    (transform : Nat) (image_handle : Handle ImageAsset) (base_color : Nat)
    (assets : AssetServer) (now : Timestamp) :
    Option (VisualServer × AssetServer) := do
  match mapLookup id vs.render_scene.mesh_instances with
  | some mesh_instance => do
    let b1 := vs.backend.update_uniform_buffer
      mesh_instance.model_uniform_buffer transform
    let mo ← mesh_instance.material_override
    let material ← assets.get_material? mo
    let assets1 ← assets.set_material? mo
      { material with base_color := base_color,
                      base_color_image := some image_handle }
    some ({ vs with backend := b1 }, assets1)
  | none => do
    let p1 := vs.backend.create_uniform_buffer transform
    let p2 := p1.1.create_model_bind_group p1.2
    let pm := assets.addVal (RustTypeId.typeId MaterialAsset)
      (.material ⟨base_color, some image_handle, 1, true⟩) now
    let material : Handle MaterialAsset := ⟨pm.2.id⟩
    let vs1 ← VisualServer.register_material?
      { vs with backend := p2.1 } material pm.1
    let quad ← vs1.quad_mesh
    some ({ vs1 with
            render_scene := { vs1.render_scene with
              mesh_instances := mapInsert id
                (⟨p2.2, p1.2, quad, some material⟩ : RenderMeshInstance)
                vs1.render_scene.mesh_instances } }, pm.1)

/-- Embeds `VisualServer::set_text`: build the glyph instance buffer (glyph
layout is float math, opaque here) and upsert the text record. -/
def VisualServer.set_text (vs : VisualServer) (id : UniqueNodeId)
    (text : List Nat) : VisualServer :=
  let p := vs.backend.create_vertex_buffer text
  { vs with
    backend := p.1,
    render_scene := { vs.render_scene with
      texts := mapInsert id (⟨p.2, text.length⟩ : RenderText)
        vs.render_scene.texts } }

/-! ## Shared helper lemmas -/

theorem mapLookup_insert_self {K : Type} {V : Type u} [DecidableEq K]
    (k : K) (v : V) (l : List (K × V)) :
    mapLookup k (mapInsert k v l) = some v := by
  induction l with
  | nil => simp [mapInsert, mapLookup]
  | cons p rest ih =>
    obtain ⟨k', v'⟩ := p
    by_cases hk : k' = k
    · simp [mapInsert, hk, mapLookup]
    · simp [mapInsert, hk, mapLookup, ih]

theorem mapLookup_insert_of_ne {K : Type} {V : Type u} [DecidableEq K]
    {k k' : K} (hne : k' ≠ k) (v : V) (l : List (K × V)) :
    mapLookup k' (mapInsert k v l) = mapLookup k' l := by
  induction l with
  | nil => simp [mapInsert, mapLookup, Ne.symm hne]
  | cons p rest ih =>
    obtain ⟨k0, v0⟩ := p
    by_cases hk : k0 = k
    · subst hk
      simp [mapInsert, mapLookup, Ne.symm hne]
    · by_cases hk' : k0 = k'
      · subst hk'
        simp [mapInsert, mapLookup, hk, hne]
      · simp [mapInsert, hk, mapLookup, hk', ih]

theorem handle_eq_iff {T : Type u} (h h' : Handle T) : h = h' ↔ h.id = h'.id := by
  cases h; cases h'; simp

/-! ## Claim C6 -/

/-- C6: for every typed handle, erasing and downcasting back to the same type
yields `Ok` of the very same handle; downcasting the erased handle to a type
with a different runtime type id yields `Err` carrying the original erased
handle unchanged (same index, same stored type identifier). -/
theorem handle_type_erasure_round_trip {T U : Type} [RustTypeId T]
    [RustTypeId U] (h : Handle T)
    (hne : RustTypeId.typeId T ≠ RustTypeId.typeId U) :
    h.to_type_erased.downcast T = Except.ok h ∧
    h.to_type_erased.downcast U = Except.error h.to_type_erased := by
  cases h with
  | mk id =>
    constructor
    · simp [Handle.to_type_erased, TypeErasedHandle.downcast]
    · simp [Handle.to_type_erased, TypeErasedHandle.downcast, hne]

/-- Witness for C6: the round trip at `Handle ImageAsset` index 7, against
the distinct type `MeshAsset`. -/
theorem handle_type_erasure_round_trip_witness :
    RustTypeId.typeId ImageAsset ≠ RustTypeId.typeId MeshAsset ∧
    ((⟨7⟩ : Handle ImageAsset).to_type_erased.downcast ImageAsset =
        Except.ok ⟨7⟩ ∧
      (⟨7⟩ : Handle ImageAsset).to_type_erased.downcast MeshAsset =
        Except.error (⟨7⟩ : Handle ImageAsset).to_type_erased) :=
  ⟨by decide, handle_type_erasure_round_trip ⟨7⟩ (by decide)⟩

/-! ## Claim C9 -/

/-- An arena already holding `2 ^ 32` slots: the smallest state on which the
`as u32` truncation inside `Arena::allocate` becomes observable. -/
def bigNatArena : Arena Nat := ⟨List.replicate (2 ^ 32) 0⟩

/-- C9 counterexample: allocating into an arena holding `2 ^ 32` slots
returns a handle whose index (0) is not the pre-insertion length, because
`self.slots.len() as u32` truncates. -/
theorem arena_allocate_index_counterexample :
    (bigNatArena.allocate 7).2.id ≠ bigNatArena.slots.length := by
  norm_num [bigNatArena, Arena.allocate]

/-- C9 amended: `allocate` always succeeds, appends, and returns the
pre-insertion length reduced `% 2 ^ 32` — equal to the pre-insertion length
whenever the arena holds fewer than `2 ^ 32` slots — and `get`/`get_mut`
panic exactly when the index is `≥` the current length, succeeding
otherwise. -/
theorem arena_allocate_get_contract {T : Type} (a : Arena T) (v : T)
    (h : Handle T) :
    (a.allocate v).2.id = a.slots.length % 2 ^ 32 ∧
    (a.slots.length < 2 ^ 32 → (a.allocate v).2.id = a.slots.length) ∧
    (a.allocate v).1.slots = a.slots ++ [v] ∧
    (a.get? h = none ↔ a.slots.length ≤ h.id) ∧
    (a.get_mut? h = none ↔ a.slots.length ≤ h.id) ∧
    (h.id < a.slots.length →
      ∃ t, a.get? h = some t ∧ a.get_mut? h = some t) := by
  refine ⟨rfl, ?_, rfl, ?_, ?_, ?_⟩
  · intro hl
    simp only [Arena.allocate]
    omega
  · simpa [Arena.get?] using List.getElem?_eq_none_iff
  · simpa [Arena.get_mut?] using List.getElem?_eq_none_iff
  · intro hlt
    exact ⟨a.slots[h.id], by simp [Arena.get?, List.getElem?_eq_getElem hlt],
           by simp [Arena.get_mut?, List.getElem?_eq_getElem hlt]⟩

/-- Witness for C9 (amended) on a one-slot arena. -/
theorem arena_allocate_get_contract_witness :
    ((⟨[5]⟩ : Arena Nat).allocate 6).2.id = 1 ∧
    (∃ t, (⟨[5]⟩ : Arena Nat).get? ⟨0⟩ = some t ∧
      (⟨[5]⟩ : Arena Nat).get_mut? ⟨0⟩ = some t) := by
  obtain ⟨-, h2, -, -, -, h6⟩ :=
    arena_allocate_get_contract (⟨[5]⟩ : Arena Nat) 6 (⟨0⟩ : Handle Nat)
  exact ⟨by simpa using h2 (by decide), h6 (by decide)⟩

/-! ## Claim C5 -/

/-- One operation of the C5 trace language: `Arena::allocate` or
`Arena::replace`. -/
inductive ArenaOp (T : Type) : Type where
  | alloc (v : T)
  | repl (h : Handle T) (v : T)

/-- Applies one operation; a `replace` through an invalid handle panics
(`none`), per the `get_mut` contract. -/
def Arena.applyOp? {T : Type} (a : Arena T) : ArenaOp T → Option (Arena T)
  | .alloc v => some (a.allocate v).1
  | .repl h v => (a.replace? h v).map (fun p => p.1)

/-- Runs a sequence of operations. -/
def Arena.runOps? {T : Type} (a : Arena T) :
    List (ArenaOp T) → Option (Arena T)
  | [] => some a
  | op :: rest => do
    let a1 ← a.applyOp? op
    a1.runOps? rest

/-- The value the slot of `h` should hold after the trace: the most recent
`replace` whose handle equals `h` (handles compare by index), or the starting
value `w`. -/
def lastReplVal {T : Type} (h : Handle T) (w : T) : List (ArenaOp T) → T
  | [] => w
  | .alloc _ :: rest => lastReplVal h w rest
  | .repl h2 v :: rest => lastReplVal h (if h2 = h then v else w) rest

theorem runOps_get {T : Type} :
    ∀ (ops : List (ArenaOp T)) (b a' : Arena T) (h : Handle T) (w : T),
    b.get? h = some w → b.runOps? ops = some a' →
    a'.get? h = some (lastReplVal h w ops) := by
  intro ops
  induction ops with
  | nil =>
    intro b a' h w hget hrun
    simp [Arena.runOps?] at hrun
    subst hrun
    simpa [lastReplVal] using hget
  | cons op rest ih =>
    intro b a' h w hget hrun
    have hlt : h.id < b.slots.length := by
      by_contra hge
      have : b.get? h = none := by
        simp [Arena.get?, List.getElem?_eq_none_iff]
        omega
      rw [this] at hget
      exact Option.noConfusion hget
    cases op with
    | alloc v =>
      simp only [Arena.runOps?, Arena.applyOp?, Option.bind_eq_bind,
        Option.some_bind] at hrun
      have hget' : (b.allocate v).1.get? h = some w := by
        simpa [Arena.allocate, Arena.get?, List.getElem?_append_left hlt]
          using hget
      simpa [lastReplVal] using ih _ _ h w hget' hrun
    | repl h2 v =>
      rcases hrep : b.replace? h2 v with _ | pr
      · simp [Arena.runOps?, Arena.applyOp?, hrep] at hrun
      · simp only [Arena.runOps?, Arena.applyOp?, hrep, Option.map_some,
          Option.bind_eq_bind, Option.some_bind] at hrun
        have hpr : pr.1.slots = b.slots.set h2.id v := by
          simp only [Arena.replace?] at hrep
          rcases hmut : b.get_mut? h2 with _ | old
          · rw [hmut] at hrep; exact Option.noConfusion hrep
          · rw [hmut] at hrep
            cases hrep
            rfl
        by_cases heq : h2 = h
        · subst heq
          have hget' : pr.1.get? h2 = some v := by
            simp [Arena.get?, hpr, List.getElem?_set_self',
              List.getElem?_eq_getElem hlt]
          simpa [lastReplVal] using ih _ _ h2 v hget' hrun
        · have hne : h2.id ≠ h.id := fun hid =>
            heq ((handle_eq_iff h2 h).mpr hid)
          have hget' : pr.1.get? h = some w := by
            simpa [Arena.get?, hpr, List.getElem?_set_ne hne] using hget
          simpa [lastReplVal, heq] using ih _ _ h w hget' hrun

/-- C5 amended: a handle returned by an `allocate` performed while the arena
held fewer than `2 ^ 32` slots reads back exactly the value stored at that
allocation, and after any later sequence of `allocate`/`replace` operations
`get` still succeeds on it and returns the value of the most recent `replace`
on that handle, or the originally stored value — no later operation
invalidates it.  (At `2 ^ 32` or more slots the returned handle is truncated
and aliases an earlier slot; see the counterexample.) -/
theorem arena_handles_stay_valid {T : Type} (a : Arena T) (v : T)
    (hlen : a.slots.length < 2 ^ 32) :
    (a.allocate v).1.get? (a.allocate v).2 = some v ∧
    ∀ (ops : List (ArenaOp T)) (a' : Arena T),
      (a.allocate v).1.runOps? ops = some a' →
      a'.get? (a.allocate v).2 = some (lastReplVal (a.allocate v).2 v ops) := by
  have hget : (a.allocate v).1.get? (a.allocate v).2 = some v := by
    show (a.slots ++ [v])[a.slots.length % 2 ^ 32]? = some v
    rw [Nat.mod_eq_of_lt hlen]
    simp
  exact ⟨hget, fun ops a' hrun => runOps_get ops _ a' _ v hget hrun⟩

/-- Allocation into an arena holding exactly `2 ^ 32` slots returns a handle
that aliases slot 0 (the `as u32` truncation). -/
theorem allocate_at_capacity_aliases_slot_zero {T : Type} (a : Arena T)
    (v w : T) (hlen : a.slots.length = 2 ^ 32) (h0 : a.slots[0]? = some w) :
    (a.allocate v).1.get? (a.allocate v).2 = some w := by
  have hpos : 0 < a.slots.length := by
    rw [hlen]
    norm_num
  show (a.slots ++ [v])[a.slots.length % 2 ^ 32]? = some w
  rw [hlen, Nat.mod_self, List.getElem?_append_left hpos, h0]

/-- C5 counterexample: the claim fails as stated once `2 ^ 32` allocations
have happened — the handle returned by the next `allocate` does not read back
the value stored at that allocation (it aliases slot 0, which holds 0). -/
theorem arena_handle_validity_counterexample :
    ¬ ((bigNatArena.allocate 7).1.get? (bigNatArena.allocate 7).2 = some 7) := by
  have hlen : bigNatArena.slots.length = 2 ^ 32 := by
    show (List.replicate (2 ^ 32) (0 : Nat)).length = 2 ^ 32
    exact List.length_replicate _ _
  have h0 : bigNatArena.slots[0]? = some 0 := by
    show (List.replicate (2 ^ 32) (0 : Nat))[0]? = some 0
    rw [List.getElem?_replicate]
    norm_num
  have h := allocate_at_capacity_aliases_slot_zero bigNatArena 7 0 hlen h0
  intro hc
  rw [h] at hc
  exact absurd (Option.some.inj hc) (by norm_num)

/-- Witness for C5 (amended): allocate 7 into `⟨[5]⟩`, then run
`[alloc 9, repl ⟨1⟩ 3]`; the handle still reads back the latest replace. -/
theorem arena_handles_stay_valid_witness :
    ((⟨[5]⟩ : Arena Nat).allocate 7).1.get?
        ((⟨[5]⟩ : Arena Nat).allocate 7).2 = some 7 ∧
    ((⟨[5]⟩ : Arena Nat).allocate 7).1.runOps?
        [ArenaOp.alloc 9, ArenaOp.repl ⟨1⟩ 3] = some ⟨[5, 3, 9]⟩ ∧
    (⟨[5, 3, 9]⟩ : Arena Nat).get? ((⟨[5]⟩ : Arena Nat).allocate 7).2 =
      some (lastReplVal ((⟨[5]⟩ : Arena Nat).allocate 7).2 7
        [ArenaOp.alloc 9, ArenaOp.repl ⟨1⟩ 3]) := by
  obtain ⟨h1, h2⟩ := arena_handles_stay_valid (⟨[5]⟩ : Arena Nat) 7 (by decide)
  refine ⟨h1, by rfl, h2 [ArenaOp.alloc 9, ArenaOp.repl ⟨1⟩ 3] _ (by rfl)⟩

/-! ## Claim C2 -/

/-- A visual server holding one entry in each handle-keyed cache and one in
each per-instance map. -/
def vsCached : VisualServer :=
  { backend := ⟨21, 1, 1, 1, 1, 1, 0⟩,
    render_scene :=
      { meshes := [(⟨0⟩, ⟨[⟨10, 11, 6, ⟨0⟩⟩]⟩)],
        materials := [(⟨0⟩, ⟨12, 13, []⟩)],
        textures := [(⟨0⟩, 14)],
        lights := [(⟨⟨0⟩, ⟨1⟩⟩, ⟨15, 16, 17⟩)],
        mesh_instances := [(⟨⟨0⟩, ⟨2⟩⟩, ⟨18, 19, ⟨0⟩, none⟩)],
        texts := [(⟨⟨0⟩, ⟨3⟩⟩, ⟨20, 5⟩)],
        fullscreen_texture := none },
    white_texture := 0,
    samplers_filtered := 1,
    font_handle := none,
    default_material := none,
    quad_mesh := none }

/-- C2 counterexample: `reset_scene` does not keep the handle-keyed caches.
The mesh, material and texture cache entries present before the call are all
gone after it, because `reset_scene` does
`self.render_scene = Default::default()`. -/
theorem reset_scene_keeps_caches_counterexample :
    (mapLookup (⟨0⟩ : Handle MeshAsset) vsCached.render_scene.meshes).isSome ∧
    mapLookup (⟨0⟩ : Handle MeshAsset)
      vsCached.reset_scene.render_scene.meshes = none ∧
    mapLookup (⟨0⟩ : Handle MaterialAsset)
      vsCached.reset_scene.render_scene.materials = none ∧
    mapLookup (⟨0⟩ : Handle ImageAsset)
      vsCached.reset_scene.render_scene.textures = none :=
  ⟨rfl, rfl, rfl, rfl⟩

/-- C2 amended: `reset_scene` resets the whole `RenderScene` to its default —
the per-instance maps (mesh instances, lights, texts) AND the handle-keyed
mesh/material/texture caches all become empty — while the backend and the
remaining server fields are untouched. -/
theorem reset_scene_clears_all_maps (vs : VisualServer) :
    vs.reset_scene.render_scene = RenderScene.defaultVal ∧
    vs.reset_scene.render_scene.meshes = [] ∧
    vs.reset_scene.render_scene.materials = [] ∧
    vs.reset_scene.render_scene.textures = [] ∧
    vs.reset_scene.render_scene.lights = [] ∧
    vs.reset_scene.render_scene.mesh_instances = [] ∧
    vs.reset_scene.render_scene.texts = [] ∧
    vs.reset_scene.backend = vs.backend ∧
    vs.reset_scene.font_handle = vs.font_handle ∧
    vs.reset_scene.default_material = vs.default_material ∧
    vs.reset_scene.quad_mesh = vs.quad_mesh :=
  ⟨rfl, rfl, rfl, rfl, rfl, rfl, rfl, rfl, rfl, rfl, rfl⟩

/-! ## Claim C3 -/

/-- An asset server with no assets at all (the steady-state calls below never
touch it, because the mesh is already cached). -/
def emptyAssets : AssetServer := AssetServer.new ⟨0, 0⟩

/-- A visual server whose mesh cache already holds handle 0 (so
`register_mesh` is a no-op) and which already carries the instance record a
first `set_mesh_instance` call would have created (buffer 28, bind group
29). -/
def vsSteady : VisualServer :=
  { backend := ⟨30, 0, 0, 1, 1, 0, 0⟩,
    render_scene := { RenderScene.defaultVal with
      meshes := [(⟨0⟩, ⟨[]⟩)],
      mesh_instances := [(⟨⟨0⟩, ⟨0⟩⟩, ⟨29, 28, ⟨0⟩, none⟩)] },
    white_texture := 0,
    samplers_filtered := 1,
    font_handle := none,
    default_material := none,
    quad_mesh := none }

theorem register_mesh_cached (vs : VisualServer) (h : Handle MeshAsset)
    (assets : AssetServer)
    (hcached : (mapLookup h vs.render_scene.meshes).isSome) :
    vs.register_mesh? h assets = some vs := by
  unfold VisualServer.register_mesh?
  simp [hcached]

/-- C3 counterexample: a steady-state `set_mesh_instance` call — the mesh is
cached and an instance record for the id already exists — creates a fresh
uniform buffer and bind group: the uniform-buffer creation counter rises from
1 to 2 and the stored per-instance buffer id changes from 28 to 30, refuting
"updates the transform uniform in place without creating a new uniform buffer
or bind group". -/
theorem set_mesh_instance_inplace_counterexample :
    mapLookup (⟨⟨0⟩, ⟨0⟩⟩ : UniqueNodeId)
      vsSteady.render_scene.mesh_instances = some ⟨29, 28, ⟨0⟩, none⟩ ∧
    vsSteady.backend.uniform_buffers_created = 1 ∧
    (vsSteady.set_mesh_instance? ⟨⟨0⟩, ⟨0⟩⟩ 5 ⟨0⟩ emptyAssets).map
        (fun vs => (vs.backend.uniform_buffers_created,
                    vs.backend.bind_groups_created,
                    mapLookup (⟨⟨0⟩, ⟨0⟩⟩ : UniqueNodeId)
                      vs.render_scene.mesh_instances)) =
      some (2, 2, some ⟨31, 30, ⟨0⟩, none⟩) :=
  ⟨rfl, rfl, rfl⟩

/-- C3 amended: `set_mesh_instance` upserts the per-instance record keyed by
`id`, but creates a fresh per-instance uniform buffer and bind group on every
call — including every steady-state call (mesh already registered) — storing
the new GPU object ids instead of updating the transform uniform of the
existing buffer in place; all other instance records are untouched.  (Only
`set_sprite` takes an update-in-place path when the instance exists.) -/
theorem set_mesh_instance_upserts (vs : VisualServer) (id : UniqueNodeId)
    (tr : Nat) (h : Handle MeshAsset) (assets : AssetServer)
    (hcached : (mapLookup h vs.render_scene.meshes).isSome) :
    vs.set_mesh_instance? id tr h assets =
      some { vs with
        backend := { vs.backend with
          next_id := vs.backend.next_id + 2,
          uniform_buffers_created := vs.backend.uniform_buffers_created + 1,
          bind_groups_created := vs.backend.bind_groups_created + 1 },
        render_scene := { vs.render_scene with
          mesh_instances := mapInsert id
            ⟨vs.backend.next_id + 1, vs.backend.next_id, h, none⟩
            vs.render_scene.mesh_instances } } := by
  unfold VisualServer.set_mesh_instance?
  rw [register_mesh_cached vs h assets hcached]
  simp [Backend.create_uniform_buffer, Backend.create_model_bind_group]

/-- Witness for C3 (amended), instantiated on the steady-state server. -/
theorem set_mesh_instance_upserts_witness :
    (mapLookup (⟨0⟩ : Handle MeshAsset) vsSteady.render_scene.meshes).isSome ∧
    vsSteady.set_mesh_instance? ⟨⟨0⟩, ⟨0⟩⟩ 5 ⟨0⟩ emptyAssets =
      some { vsSteady with
        backend := { vsSteady.backend with
          next_id := vsSteady.backend.next_id + 2,
          uniform_buffers_created :=
            vsSteady.backend.uniform_buffers_created + 1,
          bind_groups_created := vsSteady.backend.bind_groups_created + 1 },
        render_scene := { vsSteady.render_scene with
          mesh_instances := mapInsert ⟨⟨0⟩, ⟨0⟩⟩
            ⟨vsSteady.backend.next_id + 1, vsSteady.backend.next_id, ⟨0⟩, none⟩
            vsSteady.render_scene.mesh_instances } } :=
  ⟨rfl, set_mesh_instance_upserts vsSteady ⟨⟨0⟩, ⟨0⟩⟩ 5 ⟨0⟩ emptyAssets rfl⟩

/-! ## Claim C10 -/

/-- One scene-building step: the only mutation `Scene::new_empty`-based
construction (in particular the glTF loader) performs. -/
inductive SceneBuildOp : Type where
  | add_child (parent : Handle Node) (child : Node)

/-- Applies one build step. -/
def Scene.applyBuildOp (s : Scene) : SceneBuildOp → Scene
  | .add_child p c => (s.add_allocate_child p c).1

/-- A scene built the way the repository builds every scene: `new_empty`
followed by `add_allocate_child` steps. -/
def Scene.buildFrom (ops : List SceneBuildOp) : Scene :=
  ops.foldl Scene.applyBuildOp Scene.new_empty

theorem add_allocate_child_handle (s : Scene) (p : Handle Node) (c : Node) :
    (s.add_allocate_child p c).1.handle = s.handle := by
  cases s
  rfl

theorem foldl_buildOps_handle (ops : List SceneBuildOp) :
    ∀ s : Scene, (ops.foldl Scene.applyBuildOp s).handle = s.handle := by
  induction ops with
  | nil => intro s; rfl
  | cons op rest ih =>
    intro s
    cases op with
    | add_child p c =>
      rw [List.foldl_cons]
      rw [ih]
      exact add_allocate_child_handle s p c

theorem buildFrom_handle (ops : List SceneBuildOp) :
    (Scene.buildFrom ops).handle = none :=
  foldl_buildOps_handle ops Scene.new_empty

/-- C10: `make_unique_node_id` panics exactly when the scene's `handle` field
is `None`; `Scene::new_empty` starts it as `None`; any sequence of
`add_allocate_child` steps (all the glTF loader ever does to a scene) keeps
it `None`; registering a scene through `AssetServer::add` stores the scene
value unchanged (so the stored copy still has `None`); hence every
`make_unique_node_id` call on a scene produced by these constructors — as
the engine's per-frame node walk performs first thing on every node — hits
the panic branch. -/
theorem make_unique_node_id_always_panics :
    (∀ (s : Scene) (n : Handle Node),
        s.make_unique_node_id n = none ↔ s.handle = none) ∧
    Scene.new_empty.handle = none ∧
    (∀ ops, (Scene.buildFrom ops).handle = none) ∧
    (∀ ops n, (Scene.buildFrom ops).make_unique_node_id n = none) ∧
    (∀ (serv : AssetServer) (sc : Scene) (now : Timestamp),
        (mapLookup (RustTypeId.typeId Scene)
            (serv.addScene sc now).1.arenas).map
          (fun a => a.slots.getLast?) = some (some (AssetVal.scene sc))) := by
  have hiff : ∀ (s : Scene) (n : Handle Node),
      s.make_unique_node_id n = none ↔ s.handle = none := by
    intro s n
    unfold Scene.make_unique_node_id
    rcases hh : s.handle with _ | h
    · simp
    · simp
  refine ⟨hiff, rfl, buildFrom_handle, ?_, ?_⟩
  · intro ops n
    exact (hiff _ n).mpr (buildFrom_handle ops)
  · intro serv sc now
    show (mapLookup (RustTypeId.typeId Scene)
        (mapInsert (RustTypeId.typeId Scene) _ serv.arenas)).map
      (fun a => a.slots.getLast?) = some (some (AssetVal.scene sc))
    rw [mapLookup_insert_self]
    simp [Arena.allocate]

/-! ## Claim C4 -/

/-- The ordering the claim asserts for one `reload`: every timestamp-stamping
step precedes every work-enqueueing step. -/
def stampPrecedesEnqueue (evs : List ReloadEv) : Prop :=
  ∀ (i j : Nat), evs[i]? = some ReloadEv.stamped_timestamp →
    evs[j]? = some ReloadEv.enqueued_work → i < j

/-- An asset server holding one image asset whose metadata carries a source
path — the state `reload` runs on for an asynchronously loaded asset. -/
def serverWithPathImage : AssetServer :=
  { arenas := [(RustTypeId.typeId ImageAsset,
      ⟨[AssetVal.image ⟨1, 1, [128], none⟩]⟩)],
    metadata := [(⟨0, RustTypeId.typeId ImageAsset⟩,
      ⟨some "image.png", ⟨100, 0⟩, ""⟩)],
    changes := [],
    last_changes_check := ⟨100, 0⟩,
    work_queue := [],
    work_results := [] }

/-- An environment whose loads always fail and whose filesystem stats fail
(the async `reload` path consults neither). -/
def inertEnv : LoadEnv :=
  ⟨fun _ => none, fun _ _ _ => Except.error "unused"⟩

/-- C4 counterexample: `reload` of an asynchronously loaded (image) asset
emits the trace `[enqueued_work, stamped_timestamp]`: the `Work::LoadFromPath`
message is sent over the channel first, and
`set_asset_timestamp(handle, Timestamp::now())` runs only afterwards — the
stamp does not precede the enqueue. -/
theorem reload_stamp_order_counterexample :
    (serverWithPathImage.reload inertEnv ⟨200, 0⟩
        ⟨0, RustTypeId.typeId ImageAsset⟩).map (fun r => r.2.2) =
      some [ReloadEv.enqueued_work, ReloadEv.stamped_timestamp] ∧
    ¬ stampPrecedesEnqueue
        [ReloadEv.enqueued_work, ReloadEv.stamped_timestamp] := by
  constructor
  · rfl
  · intro hp
    exact absurd (hp 1 0 rfl rfl) (by norm_num)

/-- C4 amended: for an asynchronously loaded asset, `reload` enqueues the
work item first and stamps the metadata timestamp immediately afterwards,
within the same call and before returning: the trace is exactly
`[enqueued_work, stamped_timestamp]`, the work queue gains the item, and the
stored timestamp becomes the `now` of the stamping step (sampled after the
enqueue, so the background load may begin before the stamped moment; the
stamp only precedes loads enqueued later). -/
theorem reload_enqueues_then_stamps (env : LoadEnv) (now : Timestamp)
    (s : AssetServer) (h : TypeErasedHandle) (md : Metadata) (p : String)
    (hmd : s.get_metadata? h = some md) (hpath : md.path = some p)
    (hasync : loaderOnlySync h.erased_type_id = false) :
    s.reload env now h =
      some ({ s with
          work_queue := s.work_queue ++ [⟨h, md.load_options, p⟩],
          metadata := mapInsert h { md with timestamp := now } s.metadata },
        [], [ReloadEv.enqueued_work, ReloadEv.stamped_timestamp]) ∧
    AssetServer.get_metadata?
      { s with
        work_queue := s.work_queue ++ [⟨h, md.load_options, p⟩],
        metadata := mapInsert h { md with timestamp := now } s.metadata } h =
      some { md with timestamp := now } := by
  constructor
  · have hmd' : mapLookup h s.metadata = some md := hmd
    simp [AssetServer.reload, AssetServer.get_metadata?, hmd', hpath, hasync,
      AssetServer.set_asset_timestamp?]
  · exact mapLookup_insert_self h _ s.metadata

/-- Witness for C4 (amended) on the concrete one-image server. -/
theorem reload_enqueues_then_stamps_witness :
    serverWithPathImage.get_metadata? ⟨0, RustTypeId.typeId ImageAsset⟩ =
      some ⟨some "image.png", ⟨100, 0⟩, ""⟩ ∧
    loaderOnlySync (RustTypeId.typeId ImageAsset) = false ∧
    serverWithPathImage.reload inertEnv ⟨200, 0⟩
        ⟨0, RustTypeId.typeId ImageAsset⟩ =
      some ({ serverWithPathImage with
          work_queue := serverWithPathImage.work_queue ++
            [⟨⟨0, RustTypeId.typeId ImageAsset⟩, "", "image.png"⟩],
          metadata := mapInsert ⟨0, RustTypeId.typeId ImageAsset⟩
            ⟨some "image.png", ⟨200, 0⟩, ""⟩ serverWithPathImage.metadata },
        [], [ReloadEv.enqueued_work, ReloadEv.stamped_timestamp]) :=
  ⟨rfl, rfl,
    (reload_enqueues_then_stamps inertEnv ⟨200, 0⟩ serverWithPathImage
      ⟨0, RustTypeId.typeId ImageAsset⟩ ⟨some "image.png", ⟨100, 0⟩, ""⟩
      "image.png" rfl rfl rfl).1⟩

/-! ## Claim C1 -/

/-- An asset server with one image asset whose background load has completed
with an `Err`: the failed result sits in the result channel, exactly the
state `update` drains on the next frame. -/
def serverWithFailedResult : AssetServer :=
  { arenas := [(RustTypeId.typeId ImageAsset,
      ⟨[AssetVal.image ⟨1, 1, [128], none⟩]⟩)],
    metadata := [(⟨0, RustTypeId.typeId ImageAsset⟩,
      ⟨some "missing.png", ⟨100, 0⟩, ""⟩)],
    changes := [],
    last_changes_check := ⟨100, 0⟩,
    work_queue := [],
    work_results := [(⟨0, RustTypeId.typeId ImageAsset⟩,
      Except.error "io error")] }

/-- A shader-source server for the synchronous contrast (shader loads run on
the calling thread). -/
def serverWithPathShader : AssetServer :=
  { arenas := [(RustTypeId.typeId ShaderSourceAsset,
      ⟨[AssetVal.shaderSource ⟨"placeholder"⟩]⟩)],
    metadata := [(⟨0, RustTypeId.typeId ShaderSourceAsset⟩,
      ⟨some "shader.wgsl", ⟨100, 0⟩, ""⟩)],
    changes := [],
    last_changes_check := ⟨100, 0⟩,
    work_queue := [],
    work_results := [] }

/-- C1: the code's behavior at a failed load, on both paths.
`AssetServer::update` PANICS — `let asset = result.unwrap();` — when a
background (asynchronous, i.e. image) load has failed: the model returns
`none`.  The synchronous `reload` path (shader sources) does swallow a load
error as the claim says: it emits the eprintln line and leaves every part of
the server state unchanged except the re-stamped metadata timestamp. -/
theorem update_panics_on_failed_background_load :
    serverWithFailedResult.update inertEnv ⟨101, 0⟩ = none ∧
    serverWithPathShader.reload inertEnv ⟨200, 0⟩
        ⟨0, RustTypeId.typeId ShaderSourceAsset⟩ =
      some ({ serverWithPathShader with
          metadata := mapInsert ⟨0, RustTypeId.typeId ShaderSourceAsset⟩
            ⟨some "shader.wgsl", ⟨200, 0⟩, ""⟩ serverWithPathShader.metadata },
        ["AssetServer::reload(): asset failed to load: shader.wgsl"],
        [ReloadEv.stamped_timestamp]) :=
  ⟨rfl, rfl⟩

/-! ## Claim C8 -/

theorem update_texture_changes (vs : VisualServer) (h : Handle ImageAsset)
    (assets : AssetServer) (vs' : VisualServer)
    (heq : vs.update_texture? h assets = some vs') :
    vs'.render_scene.meshes = vs.render_scene.meshes ∧
    vs'.backend.vertex_buffers_created = vs.backend.vertex_buffers_created ∧
    vs'.backend.index_buffers_created = vs.backend.index_buffers_created := by
  unfold VisualServer.update_texture? at heq
  rcases hi : assets.get_image? h with _ | img
  · rw [hi] at heq
    exact Option.noConfusion heq
  · rw [hi] at heq
    simp only [Option.bind_eq_bind, Option.some_bind, Option.some.injEq]
      at heq
    subst heq
    exact ⟨rfl, rfl, rfl⟩

theorem register_texture_changes (vs : VisualServer) (h : Handle ImageAsset)
    (assets : AssetServer) (vs' : VisualServer)
    (heq : vs.register_texture? h assets = some vs') :
    vs'.render_scene.meshes = vs.render_scene.meshes ∧
    vs'.backend.vertex_buffers_created = vs.backend.vertex_buffers_created ∧
    vs'.backend.index_buffers_created = vs.backend.index_buffers_created := by
  unfold VisualServer.register_texture? at heq
  by_cases hc : (mapLookup h vs.render_scene.textures).isSome
  · rw [if_pos hc] at heq
    cases heq
    exact ⟨rfl, rfl, rfl⟩
  · rw [if_neg hc] at heq
    exact update_texture_changes vs h assets vs' heq

theorem update_render_material_data_changes (vs : VisualServer)
    (h : Handle MaterialAsset) (assets : AssetServer) (vs' : VisualServer)
    (heq : vs.update_render_material_data? h assets = some vs') :
    vs'.render_scene.meshes = vs.render_scene.meshes ∧
    vs'.backend.vertex_buffers_created = vs.backend.vertex_buffers_created ∧
    vs'.backend.index_buffers_created = vs.backend.index_buffers_created := by
  unfold VisualServer.update_render_material_data? at heq
  rcases hm : assets.get_material? h with _ | mat
  · rw [hm] at heq
    exact Option.noConfusion heq
  · rw [hm] at heq
    simp only [Option.bind_eq_bind, Option.some_bind] at heq
    rcases hbi : mat.base_color_image with _ | img
    · rw [hbi] at heq
      simp only [Option.bind_eq_bind, Option.some_bind, Option.some.injEq]
        at heq
      subst heq
      exact ⟨rfl, rfl, rfl⟩
    · rw [hbi] at heq
      rcases ht : mapLookup img vs.render_scene.textures with _ | tex
      · simp only [ht, Option.bind_eq_bind, Option.none_bind,
          Option.some_bind] at heq
        exact Option.noConfusion heq
      · simp only [ht, Option.bind_eq_bind, Option.some_bind,
          Option.some.injEq] at heq
        subst heq
        exact ⟨rfl, rfl, rfl⟩

theorem register_material_changes (vs : VisualServer)
    (h : Handle MaterialAsset) (assets : AssetServer) (vs' : VisualServer)
    (heq : vs.register_material? h assets = some vs') :
    vs'.render_scene.meshes = vs.render_scene.meshes ∧
    vs'.backend.vertex_buffers_created = vs.backend.vertex_buffers_created ∧
    vs'.backend.index_buffers_created = vs.backend.index_buffers_created := by
  unfold VisualServer.register_material? at heq
  by_cases hc : (mapLookup h vs.render_scene.materials).isSome
  · simp only [hc, if_true] at heq
    cases heq
    exact ⟨rfl, rfl, rfl⟩
  · simp only [hc, if_false, Bool.false_eq_true] at heq
    rcases hm : assets.get_material? h with _ | mat
    · rw [hm] at heq
      exact Option.noConfusion heq
    · rw [hm] at heq
      simp only [Option.bind_eq_bind, Option.some_bind] at heq
      rcases hbi : mat.base_color_image with _ | img
      · rw [hbi] at heq
        simp only [Option.some_bind] at heq
        exact update_render_material_data_changes vs h assets vs' heq
      · rw [hbi] at heq
        rcases hrt : vs.register_texture? img assets with _ | vs1
        · simp only [hrt, Option.none_bind] at heq
          exact Option.noConfusion heq
        · simp only [hrt, Option.some_bind] at heq
          obtain ⟨m1, v1, i1⟩ := register_texture_changes vs img assets vs1 hrt
          obtain ⟨m2, v2, i2⟩ :=
            update_render_material_data_changes vs1 h assets vs' heq
          exact ⟨m2.trans m1, v2.trans v1, i2.trans i1⟩

theorem registerMaterialsAll_changes (assets : AssetServer) :
    ∀ (ms : List (Handle MaterialAsset)) (vs vs' : VisualServer),
    registerMaterialsAll vs assets ms = some vs' →
    vs'.render_scene.meshes = vs.render_scene.meshes ∧
    vs'.backend.vertex_buffers_created = vs.backend.vertex_buffers_created ∧
    vs'.backend.index_buffers_created = vs.backend.index_buffers_created := by
  intro ms
  induction ms with
  | nil =>
    intro vs vs' heq
    cases heq
    exact ⟨rfl, rfl, rfl⟩
  | cons m rest ih =>
    intro vs vs' heq
    unfold registerMaterialsAll at heq
    rcases hr : vs.register_material? m assets with _ | vs1
    · rw [hr] at heq
      exact Option.noConfusion heq
    · rw [hr] at heq
      simp only [Option.bind_eq_bind, Option.some_bind] at heq
      obtain ⟨m1, v1, i1⟩ := register_material_changes vs m assets vs1 hr
      obtain ⟨m2, v2, i2⟩ := ih vs1 vs' heq
      exact ⟨m2.trans m1, v2.trans v1, i2.trans i1⟩

theorem buildSubmeshesGo_counters
    (dm : Option (Handle MaterialAsset)) :
    ∀ (sms : List SubmeshAsset) (b : Backend)
      (r : Backend × List RenderSubmesh × List (Handle MaterialAsset)),
    buildSubmeshesGo b dm sms = some r →
    r.1.vertex_buffers_created = b.vertex_buffers_created + sms.length ∧
    r.1.index_buffers_created = b.index_buffers_created + sms.length := by
  intro sms
  induction sms with
  | nil =>
    intro b r heq
    cases heq
    exact ⟨rfl, rfl⟩
  | cons sm rest ih =>
    intro b r heq
    unfold buildSubmeshesGo at heq
    rcases hsm : sm.material with _ | m0
    all_goals rw [hsm] at heq
    case cons.none =>
      rcases hdm : dm with _ | d
      · simp only [hdm, Option.bind_eq_bind, Option.none_bind] at heq
        exact Option.noConfusion heq
      · simp only [hdm, Option.bind_eq_bind, Option.some_bind] at heq
        rcases hrec : buildSubmeshesGo
            ((b.create_vertex_buffer sm.vertices).1.create_index_buffer
              sm.indices).1 dm rest with _ | r0
        · rw [hdm] at hrec
          simp only [hrec, Option.bind_eq_bind, Option.none_bind] at heq
          exact Option.noConfusion heq
        · rw [hdm] at hrec
          simp only [hrec, Option.bind_eq_bind, Option.some_bind,
            Option.some.injEq] at heq
          subst heq
          obtain ⟨hv, hi⟩ := ih _ r0 (by rw [hdm]; exact hrec)
          constructor
          · rw [hv]
            simp only [Backend.create_index_buffer,
              Backend.create_vertex_buffer, List.length_cons]
            omega
          · rw [hi]
            simp only [Backend.create_index_buffer,
              Backend.create_vertex_buffer, List.length_cons]
            omega
    case cons.some =>
      simp only [Option.bind_eq_bind, Option.some_bind] at heq
      rcases hrec : buildSubmeshesGo
          ((b.create_vertex_buffer sm.vertices).1.create_index_buffer
            sm.indices).1 dm rest with _ | r0
      · simp only [hrec, Option.none_bind] at heq
        exact Option.noConfusion heq
      · simp only [hrec, Option.some_bind, Option.some.injEq] at heq
        subst heq
        obtain ⟨hv, hi⟩ := ih _ r0 hrec
        constructor
        · rw [hv]
          simp only [Backend.create_index_buffer, Backend.create_vertex_buffer,
            List.length_cons]
          omega
        · rw [hi]
          simp only [Backend.create_index_buffer, Backend.create_vertex_buffer,
            List.length_cons]
          omega

/-- Iterated `register_mesh` with a fixed asset server in between (the "no
intervening asset change" premise of the claim). -/
def iterateRegisterMesh :
    Nat → VisualServer → Handle MeshAsset → AssetServer → Option VisualServer
  | 0, vs, _, _ => some vs
  | n + 1, vs, h, assets => do
    let vs1 ← vs.register_mesh? h assets
    iterateRegisterMesh n vs1 h assets

/-- C8: `register_mesh` is idempotent with respect to GPU resource creation:
when the mesh is not yet cached, the first call creates exactly one
vertex/index buffer pair per submesh, and each of the N-1 subsequent calls
(with the asset server unchanged) is a complete no-op — the state, hence the
mesh/material cache contents, after N ≥ 1 calls equals the state after 1
call. -/
theorem register_mesh_idempotent (vs : VisualServer) (h : Handle MeshAsset)
    (assets : AssetServer) (mesh : MeshAsset) (vs1 : VisualServer)
    (hfresh : mapLookup h vs.render_scene.meshes = none)
    (hmesh : assets.get_mesh? h = some mesh)
    (h1 : vs.register_mesh? h assets = some vs1) :
    (∀ n : Nat, iterateRegisterMesh (n + 1) vs h assets = some vs1) ∧
    (mapLookup h vs1.render_scene.meshes).isSome ∧
    vs1.backend.vertex_buffers_created =
      vs.backend.vertex_buffers_created + mesh.submeshes.length ∧
    vs1.backend.index_buffers_created =
      vs.backend.index_buffers_created + mesh.submeshes.length := by
  have hmain : (mapLookup h vs1.render_scene.meshes).isSome ∧
      vs1.backend.vertex_buffers_created =
        vs.backend.vertex_buffers_created + mesh.submeshes.length ∧
      vs1.backend.index_buffers_created =
        vs.backend.index_buffers_created + mesh.submeshes.length := by
    unfold VisualServer.register_mesh? at h1
    simp only [hfresh, Option.isSome_none, Bool.false_eq_true, if_false,
      hmesh, Option.bind_eq_bind, Option.some_bind] at h1
    rcases hb : buildSubmeshesGo vs.backend vs.default_material
        mesh.submeshes with _ | r
    · rw [hb] at h1
      exact Option.noConfusion h1
    · rw [hb] at h1
      simp only [Option.some_bind] at h1
      obtain ⟨hmeshes, hvb, hib⟩ := registerMaterialsAll_changes assets r.2.2
        _ vs1 h1
      obtain ⟨hv, hi⟩ := buildSubmeshesGo_counters vs.default_material
        mesh.submeshes vs.backend r hb
      refine ⟨?_, ?_, ?_⟩
      · rw [hmeshes]
        simp [mapLookup_insert_self]
      · rw [hvb]
        exact hv
      · rw [hib]
        exact hi
  refine ⟨?_, hmain⟩
  intro n
  have hstep : vs1.register_mesh? h assets = some vs1 :=
    register_mesh_cached vs1 h assets hmain.1
  induction n with
  | zero =>
    unfold iterateRegisterMesh
    rw [h1]
    rfl
  | succ k ihk =>
    unfold iterateRegisterMesh at ihk ⊢
    rw [h1] at ihk ⊢
    simp only [Option.bind_eq_bind, Option.some_bind] at ihk ⊢
    unfold iterateRegisterMesh
    rw [hstep]
    simpa using ihk

/-- A one-submesh mesh referencing material 0. -/
def meshTri : MeshAsset := ⟨[⟨[1, 2, 3], [0, 1, 2], some ⟨0⟩⟩]⟩

/-- An asset server holding `meshTri` and its (textureless) material. -/
def assetsWithMesh : AssetServer :=
  { arenas := [(RustTypeId.typeId MeshAsset, ⟨[AssetVal.mesh meshTri]⟩),
               (RustTypeId.typeId MaterialAsset,
                 ⟨[AssetVal.material ⟨0, none, 0, false⟩]⟩)],
    metadata := [],
    changes := [],
    last_changes_check := ⟨0, 0⟩,
    work_queue := [],
    work_results := [] }

/-- A visual server with empty caches and zeroed counters. -/
def vsFresh : VisualServer :=
  ⟨⟨0, 0, 0, 0, 0, 0, 0⟩, RenderScene.defaultVal, 0, 1, none, none, none⟩

/-- Witness for C8: three calls equal one call, and exactly one vertex/index
buffer pair was created for the single submesh. -/
theorem register_mesh_idempotent_witness :
    iterateRegisterMesh 3 vsFresh ⟨0⟩ assetsWithMesh =
      vsFresh.register_mesh? ⟨0⟩ assetsWithMesh ∧
    (vsFresh.register_mesh? ⟨0⟩ assetsWithMesh).map
      (fun v => (v.backend.vertex_buffers_created,
                 v.backend.index_buffers_created)) = some (1, 1) := by
  cases hev : vsFresh.register_mesh? ⟨0⟩ assetsWithMesh with
  | none =>
    have hs : (vsFresh.register_mesh? ⟨0⟩ assetsWithMesh).isSome := by decide
    rw [hev] at hs
    simp at hs
  | some v1 =>
    obtain ⟨hiter, -, hvb, hib⟩ := register_mesh_idempotent vsFresh ⟨0⟩
      assetsWithMesh meshTri v1 rfl rfl hev
    constructor
    · exact hiter 2
    · simp [hvb, hib, vsFresh, meshTri]

/-! ## Claim C7 -/

/-- The per-handle decision `check_for_file_changes` takes for an id of the
given asset type: scheduled for reload iff the metadata exists, carries a
source path, the stat succeeds, and the stored timestamp is strictly older
than the on-disk modified time. -/
def staleDecision (s : AssetServer) (env : LoadEnv) (tid : Nat) (id : Nat) :
    Bool :=
  match s.get_metadata? ⟨id, tid⟩ with
  | none => false
  | some md =>
    match md.path with
    | none => false
    | some path =>
      match env.fs_modified path with
      | none => false
      | some mt => Timestamp.ltb md.timestamp mt

theorem collectGo_ok (s : AssetServer) (env : LoadEnv) (tid : Nat) :
    ∀ (lst : List (Handle AssetVal × AssetVal)),
    (∀ pr ∈ lst, (s.get_metadata? ⟨pr.1.id, tid⟩).isSome) →
    ∃ L, collectGo s env tid lst = some L ∧
      (∀ x ∈ L, x.erased_type_id = tid ∧
        ∃ pr ∈ lst, pr.1.id = x.id ∧ staleDecision s env tid x.id = true) ∧
      (∀ id : Nat, L.count ⟨id, tid⟩ =
        if staleDecision s env tid id = true
        then lst.countP (fun pr => pr.1.id == id) else 0) := by
  intro lst
  induction lst with
  | nil =>
    intro _
    refine ⟨[], rfl, by simp, ?_⟩
    intro id
    simp
  | cons pr rest ih =>
    intro hwf
    obtain ⟨gh, v⟩ := pr
    obtain ⟨L0, hL0, hmem0, hcount0⟩ :=
      ih (fun q hq => hwf q (List.mem_cons_of_mem _ hq))
    have hmd := hwf (gh, v) (List.mem_cons_self _ _)
    rcases hmdv : s.get_metadata? ⟨gh.id, tid⟩ with _ | md
    · rw [hmdv] at hmd
      simp at hmd
    · have hbase : collectGo s env tid ((gh, v) :: rest) =
          (match md.path with
            | none => some L0
            | some path =>
              match env.fs_modified path with
              | none => some L0
              | some modified_timestamp =>
                if Timestamp.ltb md.timestamp modified_timestamp
                then some (⟨gh.id, tid⟩ :: L0) else some L0) := by
        simp only [collectGo, hL0, hmdv, Option.bind_eq_bind,
          Option.some_bind]
      rcases hpath : md.path with _ | path
      all_goals simp only [hpath] at hbase
      · have hsd : staleDecision s env tid gh.id = false := by
          simp only [staleDecision, hmdv, hpath]
        refine ⟨L0, hbase, ?_, ?_⟩
        · intro x hx
          obtain ⟨hxt, q, hq, hqid, hqsd⟩ := hmem0 x hx
          exact ⟨hxt, q, List.mem_cons_of_mem _ hq, hqid, hqsd⟩
        · intro id
          by_cases hid : gh.id = id
          · subst hid
            rw [hcount0 gh.id, hsd]
            simp
          · rw [hcount0 id]
            have : ((gh, v) :: rest).countP (fun pr => pr.1.id == id) =
                rest.countP (fun pr => pr.1.id == id) := by
              simp [List.countP_cons, hid]
            rw [this]
      · rcases hfs : env.fs_modified path with _ | mt
        all_goals simp only [hfs] at hbase
        · have hsd : staleDecision s env tid gh.id = false := by
            simp only [staleDecision, hmdv, hpath, hfs]
          refine ⟨L0, hbase, ?_, ?_⟩
          · intro x hx
            obtain ⟨hxt, q, hq, hqid, hqsd⟩ := hmem0 x hx
            exact ⟨hxt, q, List.mem_cons_of_mem _ hq, hqid, hqsd⟩
          · intro id
            by_cases hid : gh.id = id
            · subst hid
              rw [hcount0 gh.id, hsd]
              simp
            · rw [hcount0 id]
              have : ((gh, v) :: rest).countP (fun pr => pr.1.id == id) =
                  rest.countP (fun pr => pr.1.id == id) := by
                simp [List.countP_cons, hid]
              rw [this]
        · have hsd : staleDecision s env tid gh.id =
              Timestamp.ltb md.timestamp mt := by
            simp only [staleDecision, hmdv, hpath, hfs]
          by_cases hltb : Timestamp.ltb md.timestamp mt = true
          · rw [if_pos hltb] at hbase
            refine ⟨⟨gh.id, tid⟩ :: L0, hbase, ?_, ?_⟩
            · intro x hx
              rcases List.mem_cons.mp hx with hx0 | hx0
              · subst hx0
                exact ⟨rfl, (gh, v), List.mem_cons_self _ _, rfl,
                  by rw [hsd]; exact hltb⟩
              · obtain ⟨hxt, q, hq, hqid, hqsd⟩ := hmem0 x hx0
                exact ⟨hxt, q, List.mem_cons_of_mem _ hq, hqid, hqsd⟩
            · intro id
              by_cases hid : gh.id = id
              · subst hid
                have hsd' : staleDecision s env tid gh.id = true := by
                  rw [hsd]; exact hltb
                rw [List.count_cons]
                rw [hcount0 gh.id, hsd']
                simp [List.countP_cons, hsd']
              · rw [List.count_cons]
                rw [hcount0 id]
                have hne : (⟨gh.id, tid⟩ : TypeErasedHandle) ≠ ⟨id, tid⟩ := by
                  intro hc
                  exact hid (congrArg TypeErasedHandle.id hc)
                have : ((gh, v) :: rest).countP (fun pr => pr.1.id == id) =
                    rest.countP (fun pr => pr.1.id == id) := by
                  simp [List.countP_cons, hid]
                rw [this]
                simp [hne]
          · rw [if_neg hltb] at hbase
            have hsd' : staleDecision s env tid gh.id = false := by
              simp only [Bool.not_eq_true] at hltb
              rw [hsd]
              exact hltb
            refine ⟨L0, hbase, ?_, ?_⟩
            · intro x hx
              obtain ⟨hxt, q, hq, hqid, hqsd⟩ := hmem0 x hx
              exact ⟨hxt, q, List.mem_cons_of_mem _ hq, hqid, hqsd⟩
            · intro id
              by_cases hid : gh.id = id
              · subst hid
                rw [hcount0 gh.id, hsd']
                simp
              · rw [hcount0 id]
                have : ((gh, v) :: rest).countP (fun pr => pr.1.id == id) =
                    rest.countP (fun pr => pr.1.id == id) := by
                  simp [List.countP_cons, hid]
                rw [this]

theorem elements_id_lt {T : Type} (arena : Arena T) :
    ∀ pr ∈ arena.elements, pr.1.id < arena.slots.length := by
  intro pr hpr
  unfold Arena.elements at hpr
  obtain ⟨q, hq, hmap⟩ := List.mem_map.mp hpr
  have h1 : q.1 < arena.slots.length := by
    rw [List.enum_eq_zip_range] at hq
    exact List.mem_range.mp (List.of_mem_zip hq).1
  subst hmap
  exact Nat.lt_of_le_of_lt (Nat.mod_le q.1 (2 ^ 32)) h1

theorem elements_countP_id {T : Type} (arena : Arena T) (id : Nat)
    (hlen : arena.slots.length ≤ 2 ^ 32) (hid : id < arena.slots.length) :
    arena.elements.countP (fun pr => pr.1.id == id) = 1 := by
  unfold Arena.elements
  rw [List.countP_map]
  rw [List.enum_eq_zip_range]
  have hzip : ((List.range arena.slots.length).zip arena.slots).countP
      ((fun pr => pr.1.id == id) ∘ fun p =>
        ((⟨p.1 % 2 ^ 32⟩ : Handle T), p.2)) =
      (((List.range arena.slots.length).zip arena.slots).map
        Prod.fst).countP (fun i => i % 2 ^ 32 == id) := by
    rw [List.countP_map]
    rfl
  rw [hzip]
  rw [List.map_fst_zip _ _ (by rw [List.length_range])]
  have hcong : (List.range arena.slots.length).countP
      (fun i => i % 2 ^ 32 == id) =
      (List.range arena.slots.length).countP (fun i => i == id) := by
    apply List.countP_congr
    intro i hi
    have hilt : i < 2 ^ 32 :=
      Nat.lt_of_lt_of_le (List.mem_range.mp hi) hlen
    rw [Nat.mod_eq_of_lt hilt]
  rw [hcong]
  have : (List.range arena.slots.length).countP (fun i => i == id) =
      (List.range arena.slots.length).count id := rfl
  rw [this]
  exact List.count_eq_one_of_mem (List.nodup_range _) (List.mem_range.mpr hid)

theorem finish_metadata (s : AssetServer) (h : TypeErasedHandle) :
    (s.finish_asset_reload h).metadata = s.metadata ∧
    (s.finish_asset_reload h).arenas = s.arenas := by
  unfold AssetServer.finish_asset_reload
  split
  · exact ⟨rfl, rfl⟩
  · exact ⟨rfl, rfl⟩

theorem set_asset_timestamp_effects (s : AssetServer) (h : TypeErasedHandle)
    (ts : Timestamp) (s' : AssetServer)
    (heq : s.set_asset_timestamp? h ts = some s') :
    s'.arenas = s.arenas ∧
    (∀ k, k ≠ h → s'.get_metadata? k = s.get_metadata? k) ∧
    (∀ k, (s'.get_metadata? k).isSome = (s.get_metadata? k).isSome) ∧
    (∀ k, (s'.get_metadata? k).map (fun m => m.path) =
      (s.get_metadata? k).map (fun m => m.path)) := by
  unfold AssetServer.set_asset_timestamp? at heq
  rcases hmd : s.get_metadata? h with _ | md
  · rw [hmd] at heq
    exact Option.noConfusion heq
  · rw [hmd] at heq
    simp only [Option.bind_eq_bind, Option.some_bind, Option.some.injEq]
      at heq
    subst heq
    refine ⟨rfl, ?_, ?_, ?_⟩
    · intro k hk
      exact mapLookup_insert_of_ne hk _ _
    · intro k
      by_cases hk : k = h
      · subst hk
        show (mapLookup k (mapInsert k _ s.metadata)).isSome = _
        rw [mapLookup_insert_self]
        have : s.get_metadata? k = some md := hmd
        rw [this]
        rfl
      · exact congrArg Option.isSome (mapLookup_insert_of_ne hk _ _)
    · intro k
      by_cases hk : k = h
      · subst hk
        show (mapLookup k (mapInsert k _ s.metadata)).map _ = _
        rw [mapLookup_insert_self]
        have : s.get_metadata? k = some md := hmd
        rw [this]
        rfl
      · exact congrArg (Option.map _) (mapLookup_insert_of_ne hk _ _)

theorem set_asset_effects (s : AssetServer) (h : TypeErasedHandle)
    (v : AssetVal) (s' : AssetServer) (heq : s.set_asset? h v = some s') :
    s'.metadata = s.metadata ∧
    (∀ tid2, tid2 ≠ h.erased_type_id → s'.get_arena? tid2 = s.get_arena? tid2) ∧
    (∀ tid2, (s'.get_arena? tid2).map (fun a => a.slots.length) =
      (s.get_arena? tid2).map (fun a => a.slots.length)) := by
  unfold AssetServer.set_asset? at heq
  rcases har : mapLookup h.erased_type_id s.arenas with _ | ar
  · rw [har] at heq
    exact Option.noConfusion heq
  · rw [har] at heq
    simp only [Option.bind_eq_bind, Option.some_bind] at heq
    rcases hmut : ar.get_mut? ⟨h.id⟩ with _ | old
    · simp only [hmut, Option.none_bind] at heq
      exact Option.noConfusion heq
    · simp only [hmut, Option.some_bind, Option.some.injEq] at heq
      subst heq
      refine ⟨rfl, ?_, ?_⟩
      · intro tid2 ht2
        exact mapLookup_insert_of_ne ht2 _ _
      · intro tid2
        by_cases ht2 : tid2 = h.erased_type_id
        · subst ht2
          show (mapLookup h.erased_type_id
            (mapInsert h.erased_type_id _ s.arenas)).map _ = _
          rw [mapLookup_insert_self]
          have : s.get_arena? h.erased_type_id = some ar := har
          rw [this]
          simp
        · exact congrArg (Option.map _) (mapLookup_insert_of_ne ht2 _ _)

theorem get_metadata_congr {st st' : AssetServer}
    (hm : st'.metadata = st.metadata) :
    ∀ k, st'.get_metadata? k = st.get_metadata? k := by
  intro k
  unfold AssetServer.get_metadata?
  rw [hm]

theorem get_arena_congr {st st' : AssetServer} (ha : st'.arenas = st.arenas) :
    ∀ t, st'.get_arena? t = st.get_arena? t := by
  intro t
  unfold AssetServer.get_arena?
  rw [ha]

theorem set_asset_ok (s : AssetServer) (h : TypeErasedHandle) (v : AssetVal)
    (ar : Arena AssetVal) (har : s.get_arena? h.erased_type_id = some ar)
    (hid : h.id < ar.slots.length) :
    ∃ s1, s.set_asset? h v = some s1 := by
  unfold AssetServer.set_asset?
  have har' : mapLookup h.erased_type_id s.arenas = some ar := har
  have hmut : ar.get_mut? ⟨h.id⟩ = some ar.slots[h.id] := by
    simp [Arena.get_mut?, List.getElem?_eq_getElem hid]
  simp only [har', hmut, Option.bind_eq_bind, Option.some_bind]
  exact ⟨_, rfl⟩

theorem set_asset_timestamp_ok (s : AssetServer) (h : TypeErasedHandle)
    (ts : Timestamp) (md : Metadata) (hmd : s.get_metadata? h = some md) :
    s.set_asset_timestamp? h ts =
      some { s with
        metadata := mapInsert h { md with timestamp := ts } s.metadata } := by
  unfold AssetServer.set_asset_timestamp?
  rw [hmd]
  rfl

theorem reload_ok (env : LoadEnv) (now : Timestamp) (s : AssetServer)
    (h : TypeErasedHandle) (md : Metadata) (p : String) (ar : Arena AssetVal)
    (hmd : s.get_metadata? h = some md) (hp : md.path = some p)
    (har : s.get_arena? h.erased_type_id = some ar)
    (hid : h.id < ar.slots.length) :
    ∃ r, s.reload env now h = some r := by
  unfold AssetServer.reload
  simp only [hmd, hp, Option.bind_eq_bind, Option.some_bind]
  rcases hos : loaderOnlySync h.erased_type_id
  · simp only [hos, Bool.false_eq_true, if_false]
    have hs1md : ({ s with work_queue := s.work_queue ++
        [⟨h, md.load_options, p⟩] } : AssetServer).get_metadata? h = some md :=
      hmd
    rw [set_asset_timestamp_ok _ h now md hs1md]
    exact ⟨_, rfl⟩
  · simp only [hos, if_true]
    rcases hload : env.load h.erased_type_id md.load_options p with e | v
    all_goals simp only [hload]
    · rw [set_asset_timestamp_ok s h now md hmd]
      exact ⟨_, rfl⟩
    · obtain ⟨s1, hs1⟩ := set_asset_ok s h v ar har hid
      simp only [hs1, Option.bind_eq_bind, Option.some_bind]
      obtain ⟨hm1, -, -⟩ := set_asset_effects s h v s1 hs1
      have hm2 := (finish_metadata s1 h).1
      have hmd2 : (s1.finish_asset_reload h).get_metadata? h = some md := by
        rw [get_metadata_congr hm2, get_metadata_congr hm1]
        exact hmd
      rw [set_asset_timestamp_ok _ h now md hmd2]
      exact ⟨_, rfl⟩

theorem reload_state_effects (env : LoadEnv) (now : Timestamp)
    (s : AssetServer) (h : TypeErasedHandle)
    (r : AssetServer × List String × List ReloadEv)
    (heq : s.reload env now h = some r) :
    (∀ k, k ≠ h → r.1.get_metadata? k = s.get_metadata? k) ∧
    (∀ k, (r.1.get_metadata? k).isSome = (s.get_metadata? k).isSome) ∧
    (∀ k, (r.1.get_metadata? k).map (fun m => m.path) =
      (s.get_metadata? k).map (fun m => m.path)) ∧
    (∀ tid2, tid2 ≠ h.erased_type_id →
      r.1.get_arena? tid2 = s.get_arena? tid2) ∧
    (∀ tid2, (r.1.get_arena? tid2).map (fun a => a.slots.length) =
      (s.get_arena? tid2).map (fun a => a.slots.length)) := by
  unfold AssetServer.reload at heq
  rcases hmd : s.get_metadata? h with _ | md
  · rw [hmd] at heq
    exact Option.noConfusion heq
  rw [hmd] at heq
  simp only [Option.bind_eq_bind, Option.some_bind] at heq
  rcases hp : md.path with _ | p
  · simp only [hp, Option.none_bind] at heq
    exact Option.noConfusion heq
  simp only [hp, Option.some_bind] at heq
  rcases hos : loaderOnlySync h.erased_type_id
  all_goals rw [hos] at heq
  · simp only [Bool.false_eq_true, if_false] at heq
    rcases hst : ({ s with work_queue := s.work_queue ++
        [⟨h, md.load_options, p⟩] } : AssetServer).set_asset_timestamp? h now
      with _ | s2
    · simp only [hst, Option.none_bind] at heq
      exact Option.noConfusion heq
    · simp only [hst, Option.some_bind, Option.some.injEq] at heq
      subst heq
      obtain ⟨ha2, hne2, hs2, hp2⟩ := set_asset_timestamp_effects _ h now s2 hst
      refine ⟨?_, ?_, ?_, ?_, ?_⟩
      · intro k hk
        rw [hne2 k hk]
        rfl
      · intro k
        rw [hs2 k]
        rfl
      · intro k
        rw [hp2 k]
        rfl
      · intro tid2 _
        rw [get_arena_congr ha2]
        rfl
      · intro tid2
        rw [get_arena_congr ha2]
        rfl
  · simp only [if_true] at heq
    rcases hload : env.load h.erased_type_id md.load_options p with e | v
    all_goals rw [hload] at heq
    · rcases hst : s.set_asset_timestamp? h now with _ | s2
      · simp only [hst, Option.none_bind] at heq
        exact Option.noConfusion heq
      · simp only [hst, Option.some_bind, Option.some.injEq] at heq
        subst heq
        obtain ⟨ha2, hne2, hs2, hp2⟩ :=
          set_asset_timestamp_effects s h now s2 hst
        exact ⟨fun k hk => hne2 k hk, hs2, hp2,
          fun tid2 _ => get_arena_congr ha2 tid2,
          fun tid2 => by rw [get_arena_congr ha2]⟩
    · rcases hsa : s.set_asset? h v with _ | s1
      · simp only [hsa, Option.none_bind] at heq
        exact Option.noConfusion heq
      simp only [hsa, Option.some_bind] at heq
      rcases hst : (s1.finish_asset_reload h).set_asset_timestamp? h now
        with _ | s3
      · simp only [hst, Option.none_bind] at heq
        exact Option.noConfusion heq
      simp only [hst, Option.some_bind, Option.some.injEq] at heq
      subst heq
      obtain ⟨hm1, hane1, halen1⟩ := set_asset_effects s h v s1 hsa
      have hfm := (finish_metadata s1 h).1
      have hfa := (finish_metadata s1 h).2
      obtain ⟨ha3, hne3, hs3, hp3⟩ :=
        set_asset_timestamp_effects _ h now s3 hst
      refine ⟨?_, ?_, ?_, ?_, ?_⟩
      · intro k hk
        rw [hne3 k hk, get_metadata_congr hfm, get_metadata_congr hm1]
      · intro k
        rw [hs3 k, get_metadata_congr hfm, get_metadata_congr hm1]
      · intro k
        rw [hp3 k, get_metadata_congr hfm, get_metadata_congr hm1]
      · intro tid2 ht2
        rw [get_arena_congr ha3, get_arena_congr hfa]
        exact hane1 tid2 ht2
      · intro tid2
        rw [get_arena_congr ha3, get_arena_congr hfa]
        exact halen1 tid2

theorem reloadAll_ok (env : LoadEnv) (now : Timestamp) :
    ∀ (L : List TypeErasedHandle) (s : AssetServer),
    (∀ x ∈ L, ∃ md p ar, s.get_metadata? x = some md ∧ md.path = some p ∧
      s.get_arena? x.erased_type_id = some ar ∧ x.id < ar.slots.length) →
    ∃ s' logs, reloadAll env now s L = some (s', logs) ∧
      (∀ k, k ∉ L → s'.get_metadata? k = s.get_metadata? k) ∧
      (∀ k, (s'.get_metadata? k).isSome = (s.get_metadata? k).isSome) ∧
      (∀ k, (s'.get_metadata? k).map (fun m => m.path) =
        (s.get_metadata? k).map (fun m => m.path)) ∧
      (∀ tid2, (∀ x ∈ L, x.erased_type_id ≠ tid2) →
        s'.get_arena? tid2 = s.get_arena? tid2) ∧
      (∀ tid2, (s'.get_arena? tid2).map (fun a => a.slots.length) =
        (s.get_arena? tid2).map (fun a => a.slots.length)) := by
  intro L
  induction L with
  | nil =>
    intro s _
    exact ⟨s, [], rfl, fun k _ => rfl, fun k => rfl, fun k => rfl,
      fun t _ => rfl, fun t => rfl⟩
  | cons x rest ih =>
    intro s hpre
    obtain ⟨md, p, ar, hmd, hp, har, hid⟩ := hpre x (List.mem_cons_self _ _)
    obtain ⟨r, hr⟩ := reload_ok env now s x md p ar hmd hp har hid
    obtain ⟨hne, hsome, hpath, hane, hlen⟩ :=
      reload_state_effects env now s x r hr
    have hpre' : ∀ y ∈ rest, ∃ md' p' ar',
        r.1.get_metadata? y = some md' ∧ md'.path = some p' ∧
        r.1.get_arena? y.erased_type_id = some ar' ∧
        y.id < ar'.slots.length := by
      intro y hy
      obtain ⟨md', p', ar', hmd', hp', har', hid'⟩ :=
        hpre y (List.mem_cons_of_mem _ hy)
      have hs := hsome y
      rw [hmd'] at hs
      rcases hmd'' : r.1.get_metadata? y with _ | md''
      · rw [hmd''] at hs
        simp at hs
      · have hpm := hpath y
        rw [hmd', hmd''] at hpm
        simp only [Option.map_some'] at hpm
        have hpm' : md''.path = some p' := by
          rw [Option.some.inj hpm, hp']
        have hl := hlen y.erased_type_id
        rw [har'] at hl
        rcases har'' : r.1.get_arena? y.erased_type_id with _ | ar''
        · rw [har''] at hl
          simp at hl
        · rw [har''] at hl
          simp only [Option.map_some'] at hl
          have hlen'' : ar''.slots.length = ar'.slots.length :=
            Option.some.inj hl
          exact ⟨md'', p', ar'', rfl, hpm', rfl, by rw [hlen'']; exact hid'⟩
    obtain ⟨s', logs', hrest, hne', hsome', hpath', hane', hlen'⟩ :=
      ih r.1 hpre'
    refine ⟨s', r.2.1 ++ logs', ?_, ?_, ?_, ?_, ?_, ?_⟩
    · show (s.reload env now x).bind _ = _
      rw [hr]
      simp only [Option.some_bind, hrest, Option.bind_eq_bind]
    · intro k hk
      have hk1 : k ≠ x := fun hc => hk (hc ▸ List.mem_cons_self _ _)
      have hk2 : k ∉ rest := fun hc => hk (List.mem_cons_of_mem _ hc)
      rw [hne' k hk2, hne k hk1]
    · intro k
      rw [hsome' k, hsome k]
    · intro k
      rw [hpath' k, hpath k]
    · intro tid2 hall
      have h1 : x.erased_type_id ≠ tid2 := hall x (List.mem_cons_self _ _)
      have h2 : ∀ y ∈ rest, y.erased_type_id ≠ tid2 :=
        fun y hy => hall y (List.mem_cons_of_mem _ hy)
      rw [hane' tid2 h2, hane tid2 (fun hc => h1 hc.symm)]
    · intro tid2
      rw [hlen' tid2, hlen tid2]

theorem staleDecision_true_elim (s : AssetServer) (env : LoadEnv) (tid id : Nat)
    (h : staleDecision s env tid id = true) :
    ∃ md p mt, s.get_metadata? ⟨id, tid⟩ = some md ∧ md.path = some p ∧
      env.fs_modified p = some mt ∧ Timestamp.ltb md.timestamp mt = true := by
  unfold staleDecision at h
  rcases hmd : s.get_metadata? ⟨id, tid⟩ with _ | md
  · rw [hmd] at h
    exact Bool.noConfusion h
  rw [hmd] at h
  simp only [] at h
  rcases hp : md.path with _ | p
  · rw [hp] at h
    exact Bool.noConfusion h
  rw [hp] at h
  simp only [] at h
  rcases hfs : env.fs_modified p with _ | mt
  · rw [hfs] at h
    exact Bool.noConfusion h
  rw [hfs] at h
  simp only [] at h
  exact ⟨md, p, mt, rfl, hp, hfs, h⟩

theorem staleDecision_congr (s s' : AssetServer) (env : LoadEnv)
    (tid id : Nat)
    (h : s'.get_metadata? ⟨id, tid⟩ = s.get_metadata? ⟨id, tid⟩) :
    staleDecision s' env tid id = staleDecision s env tid id := by
  unfold staleDecision
  rw [h]

theorem erased_eta (x : TypeErasedHandle) (tid : Nat)
    (hx : x.erased_type_id = tid) : x = ⟨x.id, tid⟩ := by
  cases x
  cases hx
  rfl

theorem count_eq_zero_of_tid_ne (L : List TypeErasedHandle) (tid tid' : Nat)
    (hall : ∀ x ∈ L, x.erased_type_id = tid) (hne : tid ≠ tid') (id : Nat) :
    L.count ⟨id, tid'⟩ = 0 := by
  rw [List.count_eq_zero]
  intro hmem
  exact hne (hall _ hmem).symm

theorem check_for_file_changes_spec (env : LoadEnv) (now : Timestamp)
    (s : AssetServer) (arI arS : Arena AssetVal)
    (harI : s.get_arena? (RustTypeId.typeId ImageAsset) = some arI)
    (harS : s.get_arena? (RustTypeId.typeId ShaderSourceAsset) = some arS)
    (hwfI : ∀ pr ∈ arI.elements,
      (s.get_metadata? ⟨pr.1.id, RustTypeId.typeId ImageAsset⟩).isSome)
    (hwfS : ∀ pr ∈ arS.elements,
      (s.get_metadata? ⟨pr.1.id, RustTypeId.typeId ShaderSourceAsset⟩).isSome) :
    ∃ s2 reloaded logs,
      s.check_for_file_changes env now = some (s2, reloaded, logs) ∧
      (∀ id : Nat,
        reloaded.count ⟨id, RustTypeId.typeId ImageAsset⟩ =
          if staleDecision s env (RustTypeId.typeId ImageAsset) id = true
          then arI.elements.countP (fun pr => pr.1.id == id) else 0) ∧
      (∀ id : Nat,
        reloaded.count ⟨id, RustTypeId.typeId ShaderSourceAsset⟩ =
          if staleDecision s env (RustTypeId.typeId ShaderSourceAsset) id = true
          then arS.elements.countP (fun pr => pr.1.id == id) else 0) := by
  have htne : RustTypeId.typeId ImageAsset ≠ RustTypeId.typeId ShaderSourceAsset :=
    by decide
  obtain ⟨LI, hLI, memI, countI⟩ :=
    collectGo_ok s env (RustTypeId.typeId ImageAsset) arI.elements hwfI
  have hpreI : ∀ x ∈ LI, ∃ md p ar, s.get_metadata? x = some md ∧
      md.path = some p ∧ s.get_arena? x.erased_type_id = some ar ∧
      x.id < ar.slots.length := by
    intro x hx
    obtain ⟨hxt, pr, hpr, hprid, hsd⟩ := memI x hx
    obtain ⟨md, p, mt, hmd, hp, -, -⟩ :=
      staleDecision_true_elim s env _ x.id hsd
    refine ⟨md, p, arI, ?_, hp, ?_, ?_⟩
    · rw [erased_eta x _ hxt]
      exact hmd
    · rw [hxt]
      exact harI
    · rw [← hprid]
      exact elements_id_lt arI pr hpr
  obtain ⟨s1, logsI, hrelI, hneP, hsomeP, hpathP, haneP, hlenP⟩ :=
    reloadAll_ok env now LI s hpreI
  have hnotinI : ∀ id : Nat,
      (⟨id, RustTypeId.typeId ShaderSourceAsset⟩ : TypeErasedHandle) ∉ LI := by
    intro id hmem
    exact htne ((memI _ hmem).1).symm
  have harS1 : s1.get_arena? (RustTypeId.typeId ShaderSourceAsset) =
      some arS := by
    rw [haneP _ (fun x hx => by rw [(memI x hx).1]; exact htne), harS]
  have hwfS1 : ∀ pr ∈ arS.elements,
      (s1.get_metadata? ⟨pr.1.id, RustTypeId.typeId ShaderSourceAsset⟩).isSome
      := by
    intro pr hpr
    rw [hsomeP]
    exact hwfS pr hpr
  obtain ⟨LS, hLS, memS, countS⟩ :=
    collectGo_ok s1 env (RustTypeId.typeId ShaderSourceAsset)
      arS.elements hwfS1
  have hpreS : ∀ x ∈ LS, ∃ md p ar, s1.get_metadata? x = some md ∧
      md.path = some p ∧ s1.get_arena? x.erased_type_id = some ar ∧
      x.id < ar.slots.length := by
    intro x hx
    obtain ⟨hxt, pr, hpr, hprid, hsd⟩ := memS x hx
    obtain ⟨md, p, mt, hmd, hp, -, -⟩ :=
      staleDecision_true_elim s1 env _ x.id hsd
    refine ⟨md, p, arS, ?_, hp, ?_, ?_⟩
    · rw [erased_eta x _ hxt]
      exact hmd
    · rw [hxt]
      exact harS1
    · rw [← hprid]
      exact elements_id_lt arS pr hpr
  obtain ⟨s2, logsS, hrelS, hneP2, hsomeP2, hpathP2, haneP2, hlenP2⟩ :=
    reloadAll_ok env now LS s1 hpreS
  have hcollI : s.collect_to_reload? env (RustTypeId.typeId ImageAsset) =
      some LI := by
    unfold AssetServer.collect_to_reload?
    rw [harI]
    simpa using hLI
  have hcollS : s1.collect_to_reload? env (RustTypeId.typeId ShaderSourceAsset)
      = some LS := by
    unfold AssetServer.collect_to_reload?
    rw [harS1]
    simpa using hLS
  refine ⟨s2, LI ++ LS, logsI ++ logsS, ?_, ?_, ?_⟩
  · unfold AssetServer.check_for_file_changes
    rw [hcollI]
    simp only [Option.bind_eq_bind, Option.some_bind]
    rw [hrelI]
    simp only [Option.some_bind]
    rw [hcollS]
    simp only [Option.some_bind]
    rw [hrelS]
    simp only [Option.some_bind]
  · intro id
    rw [List.count_append]
    have hz : LS.count ⟨id, RustTypeId.typeId ImageAsset⟩ = 0 :=
      count_eq_zero_of_tid_ne LS _ _ (fun x hx => (memS x hx).1)
        (Ne.symm htne) id
    rw [hz, countI id, Nat.add_zero]
  · intro id
    rw [List.count_append]
    have hz : LI.count ⟨id, RustTypeId.typeId ShaderSourceAsset⟩ = 0 :=
      count_eq_zero_of_tid_ne LI _ _ (fun x hx => (memI x hx).1) htne id
    rw [hz, countS id, Nat.zero_add]
    have hmdeq : s1.get_metadata?
        ⟨id, RustTypeId.typeId ShaderSourceAsset⟩ =
        s.get_metadata? ⟨id, RustTypeId.typeId ShaderSourceAsset⟩ :=
      hneP _ (hnotinI id)
    rw [staleDecision_congr s s1 env _ id hmdeq]

/-- C7: for a path-backed asset handle of one of the two hot-reloadable types
(images, shader sources), when the on-disk modified time strictly exceeds the
stored timestamp, the next `update` call made after the 250ms poll interval
has elapsed triggers exactly one `reload` for that handle, and zero when the
modified time does not exceed the stored timestamp.  Hypotheses: no pending
background results, both type arenas exist (as `check_for_file_changes`
demands on pain of panic), every stored asset has metadata, the arenas hold
fewer than `2 ^ 32` slots (no handle-index truncation), and the handle is
live.  The conclusion counts the occurrences of the handle in the list of
handles `reload` was invoked on during the `update` call. -/
theorem update_reload_freshness
    (env : LoadEnv) (now : Timestamp) (s : AssetServer) (tid : Nat)
    (h : TypeErasedHandle) (md : Metadata) (p : String) (mt : Timestamp)
    (arI arS : Arena AssetVal)
    (htid : tid = RustTypeId.typeId ImageAsset ∨
      tid = RustTypeId.typeId ShaderSourceAsset)
    (hh : h.erased_type_id = tid)
    (hnores : s.work_results = [])
    (harI : s.get_arena? (RustTypeId.typeId ImageAsset) = some arI)
    (harS : s.get_arena? (RustTypeId.typeId ShaderSourceAsset) = some arS)
    (hwfI : ∀ pr ∈ arI.elements,
      (s.get_metadata? ⟨pr.1.id, RustTypeId.typeId ImageAsset⟩).isSome)
    (hwfS : ∀ pr ∈ arS.elements,
      (s.get_metadata? ⟨pr.1.id, RustTypeId.typeId ShaderSourceAsset⟩).isSome)
    (hsmallI : arI.slots.length ≤ 2 ^ 32)
    (hsmallS : arS.slots.length ≤ 2 ^ 32)
    (hvalidI : tid = RustTypeId.typeId ImageAsset → h.id < arI.slots.length)
    (hvalidS : tid = RustTypeId.typeId ShaderSourceAsset →
      h.id < arS.slots.length)
    (hpoll : (0.25 : ℚ) < s.last_changes_check.seconds_since now)
    (hmd : s.get_metadata? h = some md)
    (hpath : md.path = some p)
    (hfs : env.fs_modified p = some mt) :
    ∃ s' reloaded logs, s.update env now = some (s', reloaded, logs) ∧
      reloaded.count h =
        (if Timestamp.ltb md.timestamp mt = true then 1 else 0) := by
  have hdrain : s.drain_results? = some { s with work_results := [] } := by
    unfold AssetServer.drain_results?
    rw [hnores]
    rfl
  have harI1 : AssetServer.get_arena? { s with work_results := [] }
      (RustTypeId.typeId ImageAsset) = some arI := harI
  have harS1 : AssetServer.get_arena? { s with work_results := [] }
      (RustTypeId.typeId ShaderSourceAsset) = some arS := harS
  have hwfI1 : ∀ pr ∈ arI.elements,
      (AssetServer.get_metadata? { s with work_results := [] }
        ⟨pr.1.id, RustTypeId.typeId ImageAsset⟩).isSome := hwfI
  have hwfS1 : ∀ pr ∈ arS.elements,
      (AssetServer.get_metadata? { s with work_results := [] }
        ⟨pr.1.id, RustTypeId.typeId ShaderSourceAsset⟩).isSome := hwfS
  obtain ⟨s2, reloaded, logs, hchk, hcntI, hcntS⟩ :=
    check_for_file_changes_spec env now { s with work_results := [] }
      arI arS harI1 harS1 hwfI1 hwfS1
  have hpoll1 : (0.25 : ℚ) <
      Timestamp.seconds_since
        (AssetServer.last_changes_check { s with work_results := [] }) now :=
    hpoll
  have hupd : s.update env now =
      some ({ s2 with last_changes_check := now }, reloaded, logs) := by
    unfold AssetServer.update
    rw [hdrain]
    simp only [Option.bind_eq_bind, Option.some_bind]
    rw [if_pos hpoll1]
    rw [hchk]
    simp only [Option.bind_eq_bind, Option.some_bind]
  have hmd2 : s.get_metadata? ⟨h.id, tid⟩ = some md := by
    rw [← erased_eta h tid hh]
    exact hmd
  refine ⟨{ s2 with last_changes_check := now }, reloaded, logs, hupd, ?_⟩
  rcases htid with h1 | h1
  · subst h1
    rw [erased_eta h _ hh]
    rw [hcntI h.id]
    have hsd : staleDecision { s with work_results := [] } env
        (RustTypeId.typeId ImageAsset) h.id =
        Timestamp.ltb md.timestamp mt := by
      rw [staleDecision_congr s { s with work_results := [] } env _ h.id rfl]
      simp only [staleDecision, hmd2, hpath, hfs]
    rw [hsd, elements_countP_id arI h.id hsmallI (hvalidI rfl)]
  · subst h1
    rw [erased_eta h _ hh]
    rw [hcntS h.id]
    have hsd : staleDecision { s with work_results := [] } env
        (RustTypeId.typeId ShaderSourceAsset) h.id =
        Timestamp.ltb md.timestamp mt := by
      rw [staleDecision_congr s { s with work_results := [] } env _ h.id rfl]
      simp only [staleDecision, hmd2, hpath, hfs]
    rw [hsd, elements_countP_id arS h.id hsmallS (hvalidS rfl)]

/-- A server with one image asset (path "i.png") and one shader source
(path "s.wgsl"), both stamped at t = 100; the last poll happened at
t = 100. -/
def freshnessServer : AssetServer :=
  { arenas := [(RustTypeId.typeId ImageAsset,
      ⟨[AssetVal.image ⟨1, 1, [128], none⟩]⟩),
      (RustTypeId.typeId ShaderSourceAsset,
      ⟨[AssetVal.shaderSource ⟨"src"⟩]⟩)],
    metadata := [(⟨0, RustTypeId.typeId ImageAsset⟩,
      ⟨some "i.png", ⟨100, 0⟩, ""⟩),
      (⟨0, RustTypeId.typeId ShaderSourceAsset⟩,
      ⟨some "s.wgsl", ⟨100, 0⟩, ""⟩)],
    changes := [],
    last_changes_check := ⟨100, 0⟩,
    work_queue := [],
    work_results := [] }

/-- Filesystem for the witness: the image file was modified at t = 150
(newer than its stamp), the shader file at t = 50 (older). -/
def freshnessEnv : LoadEnv :=
  ⟨fun q => if q = "i.png" then some ⟨150, 0⟩
    else if q = "s.wgsl" then some ⟨50, 0⟩ else none,
   fun _ _ _ => Except.error "unused"⟩

/-- Witness for C7: at t = 101 (poll elapsed) the update reloads the stale
image exactly once and the fresh shader source zero times. -/
theorem update_reload_freshness_witness :
    (freshnessServer.update freshnessEnv ⟨101, 0⟩).map
        (fun r => (r.2.1.count ⟨0, RustTypeId.typeId ImageAsset⟩,
                   r.2.1.count ⟨0, RustTypeId.typeId ShaderSourceAsset⟩)) =
      some (1, 0) := by
  obtain ⟨s1, rel1, logs1, hupd1, hcnt1⟩ :=
    update_reload_freshness freshnessEnv ⟨101, 0⟩ freshnessServer
      (RustTypeId.typeId ImageAsset) ⟨0, RustTypeId.typeId ImageAsset⟩
      ⟨some "i.png", ⟨100, 0⟩, ""⟩ "i.png" ⟨150, 0⟩
      ⟨[AssetVal.image ⟨1, 1, [128], none⟩]⟩
      ⟨[AssetVal.shaderSource ⟨"src"⟩]⟩
      (Or.inl rfl) rfl rfl rfl rfl (by decide) (by decide)
      (by decide) (by decide) (fun _ => by decide) (fun _ => by decide)
      (by norm_num [freshnessServer, Timestamp.seconds_since,
        Timestamp.as_seconds]) rfl rfl (by decide)
  obtain ⟨s2, rel2, logs2, hupd2, hcnt2⟩ :=
    update_reload_freshness freshnessEnv ⟨101, 0⟩ freshnessServer
      (RustTypeId.typeId ShaderSourceAsset)
      ⟨0, RustTypeId.typeId ShaderSourceAsset⟩
      ⟨some "s.wgsl", ⟨100, 0⟩, ""⟩ "s.wgsl" ⟨50, 0⟩
      ⟨[AssetVal.image ⟨1, 1, [128], none⟩]⟩
      ⟨[AssetVal.shaderSource ⟨"src"⟩]⟩
      (Or.inr rfl) rfl rfl rfl rfl (by decide) (by decide)
      (by decide) (by decide) (fun hc => by exact absurd hc (by decide))
      (fun _ => by decide) (by norm_num [freshnessServer,
        Timestamp.seconds_since, Timestamp.as_seconds]) rfl rfl (by decide)
  have heq := Option.some.inj (hupd1.symm.trans hupd2)
  have hrel : rel1 = rel2 := congrArg (fun x => x.2.1) heq
  rw [hupd1]
  have h1 : rel1.count ⟨0, RustTypeId.typeId ImageAsset⟩ = 1 := by
    rw [hcnt1]
    decide
  have h2 : rel1.count ⟨0, RustTypeId.typeId ShaderSourceAsset⟩ = 0 := by
    rw [hrel, hcnt2]
    decide
  simp [h1, h2]
